import Mathlib

/-!
# Verification of the virt-ic circuit simulator against its specification

Shallow embedding of the parts of the `virt-ic` repository that the
claims C1..C10 are about:

* the 6502-class CPU datapath helpers `run_adc`, `run_sbc`, `run_cmp`
  and the `ROR` read-modify-write arms (`src/chip/cpu/nes6502.rs`);
* the opcode byte tables and argument plumbing
  (`src/chip/cpu/nes6502/opcodes.rs`) and the assembler
  (`src/chip/cpu/nes6502/assembler.rs`);
* the CPU falling-edge state machine restricted to the no-operand
  instructions (`Nes6502::run`);
* the board tick scheduler and trace resolution
  (`src/board.rs`, `src/trace.rs`);
* the RAM power-on randomization (`src/chip/memories.rs`);
* the id-handle store `Storage` (`src/utilities.rs`).

Machine integers are modelled as `Nat` with explicit `% 2^w` where the
Rust code wraps.  Registers of type `Reg<u8>` / `Reg<u16>` (declared in
`chip/cpu.rs`, which is not part of this snapshot) are modelled from the
spec as 8-bit / 16-bit wrapping values ("All arithmetic is 8-bit
wrapping unless noted").
-/

set_option maxRecDepth 8000

namespace VirtIc

/-- The NES 6502 status register, one field per defined flag bit of
`StatusRegister` (N, V, B, D, I, Z, C). -/
structure StatusFlags where
  n : Bool
  v : Bool
  b : Bool
  d : Bool
  i : Bool
  z : Bool
  c : Bool
deriving DecidableEq, Repr

/-- Bitwise complement on an 8-bit value (Rust `!x` on `u8`), valid for
`x < 256`. -/
def u8not (x : Nat) : Nat := 255 - x

/-- `Nes6502::set_flags_nz`: set Z iff the value is zero and N from bit 7. -/
def set_flags_nz (p : StatusFlags) (val : Nat) : StatusFlags :=
  { p with z := decide (val = 0), n := decide (0 < val &&& 128) }

/-- Result of the accumulator-updating arithmetic helpers: the new A and
the new status register. -/
structure AdcResult where
  a : Nat
  p : StatusFlags
deriving DecidableEq, Repr

/-- `Nes6502::run_adc` (nes6502.rs:1362-1376): note that the incoming
carry is added to the operand with `u8::wrapping_add` (8-bit wrap)
before the 16-bit sum is formed. -/
def run_adc (a val : Nat) (p : StatusFlags) : AdcResult :=
  let rhs := (val + (if p.c then 1 else 0)) % 256
  let sum := a + rhs
  let p := { p with c := decide (255 < sum) }
  let sum8 := sum % 256
  let p := set_flags_nz p sum8
  let p := { p with v := decide (0 < u8not (a ^^^ val) &&& (a ^^^ sum8) &&& 128) }
  { a := sum8, p := p }

/-- `Nes6502::run_sbc` (nes6502.rs:1444-1446): `SBC(x) = ADC(!x)`. -/
def run_sbc (a val : Nat) (p : StatusFlags) : AdcResult :=
  run_adc a (u8not val) p

/-- `Nes6502::run_cmp` (nes6502.rs:1396-1410): complement the operand,
then run the ADC datapath (including the incoming carry and the V flag
update); A is not written back. -/
def run_cmp (base val : Nat) (p : StatusFlags) : StatusFlags :=
  let val := u8not val
  let rhs := (val + (if p.c then 1 else 0)) % 256
  let sum := base + rhs
  let p := { p with c := decide (255 < sum) }
  let sum8 := sum % 256
  let p := set_flags_nz p sum8
  { p with v := decide (0 < u8not (base ^^^ val) &&& (base ^^^ sum8) &&& 128) }

/-- The `ROR` Implicit arm (nes6502.rs:1117-1128): new A and new carry.
The register add (`Reg<u8>`) wraps mod 256. -/
def ror_implicit (a : Nat) (carry : Bool) : Nat × Bool :=
  let oldCarry := if carry then 1 else 0
  let newCarry := decide (0 < a &&& 1)
  (((a >>> 1) + (oldCarry <<< 7)) % 256, newCarry)

/-- The data transform of step 1 of the `ROR` ZeroPage arm
(nes6502.rs:1134-1147): the byte written back and the new carry. -/
def ror_zeropage_data (data : Nat) (carry : Bool) : Nat × Bool :=
  let oldCarry := if carry then 1 else 0
  let newCarry := decide (0 < data &&& 1)
  (((data >>> 1) + (oldCarry <<< 7)) % 256, newCarry)

/-- The data transform of step 1 of the `ROR` Absolute arm
(nes6502.rs:1157-1170).  The source shifts LEFT here (`data <<= 1`,
line 1165); the `u8` shift discards high bits (mod 256) and the
register add wraps. -/
def ror_absolute_data (data : Nat) (carry : Bool) : Nat × Bool :=
  let oldCarry := if carry then 1 else 0
  let newCarry := decide (0 < data &&& 1)
  ((((data <<< 1) % 256) + (oldCarry <<< 7)) % 256, newCarry)

/-- Flags value with only the carry set, as left by a `SEC`. -/
def flagsC : StatusFlags :=
  { n := false, v := false, b := false, d := false, i := false, z := false, c := true }

/-- Flags value with every flag clear. -/
def flags0 : StatusFlags :=
  { n := false, v := false, b := false, d := false, i := false, z := false, c := false }

/-- For 8-bit values, bit 7 of `x` is set exactly when `128 ≤ x`. -/
theorem and128_iff : ∀ x < 256, (0 < x &&& 128 ↔ 128 ≤ x) := by decide

/-- C1: `run_adc` adds the incoming carry to the operand with an 8-bit
wrapping add before forming the 16-bit sum.  At A = 0x00, v = 0xFF with
the carry set, the operand wraps to 0x00, so the sum is 0x00 and the
carry-out is cleared — although the claimed 16-bit sum
A + v + C = 0x100 exceeds 0xFF, which would demand a set carry-out.
(`run_sbc` does delegate to `run_adc` on the complemented operand, as
the claim states: checked here on a sample input.) -/
theorem run_adc_wraps_incoming_carry :
    (run_adc 0 255 flagsC).a = 0 ∧
    (run_adc 0 255 flagsC).p.c = false ∧
    255 < 0 + 255 + 1 ∧
    run_sbc 10 37 flagsC = run_adc 10 (255 - 37) flagsC := by decide

/-- C2: in the Absolute arm of `ROR` the operand byte is shifted LEFT
before the old carry is added into bit 7: on operand 0x02 with carry
clear the byte written back is 0x04, while a right shift (as in the
Implicit and ZeroPage arms, shown alongside) yields 0x01. -/
theorem ror_absolute_shifts_left :
    ror_absolute_data 2 false = (4, false) ∧
    ror_zeropage_data 2 false = (1, false) ∧
    ror_implicit 2 false = (1, false) := by decide

/-- C7 counterexample: `run_cmp` is not carry-independent and does not
leave V alone.  With the incoming carry clear, comparing 5 with 5
leaves Z clear (the claim demands Z set since base = operand); and
comparing 0x80 with 0x7F with carry set turns the V flag on (the claim
says only N, Z and C are modified). -/
theorem run_cmp_carry_dependent :
    (run_cmp 5 5 flags0).z = false ∧
    (run_cmp 128 127 flagsC).v = true := by decide

/-- C7 (amended): `run_cmp` pushes the operand's complement through the
ADC datapath, so the comparison semantics `C ↔ base ≥ operand`,
`Z ↔ base = operand`, `N = bit 7 of the 8-bit difference` holds exactly
when the incoming carry is set and the operand is nonzero (at operand 0
the 8-bit wrapping add of the carry loses the borrow); the V flag is
also recomputed. -/
theorem run_cmp_correct_when_carry_set (base val : Nat) (p : StatusFlags)
    (hb : base < 256) (hv1 : 1 ≤ val) (hv : val < 256) (hc : p.c = true) :
    (run_cmp base val p).c = decide (val ≤ base) ∧
    (run_cmp base val p).z = decide (base = val) ∧
    (run_cmp base val p).n = decide (128 ≤ (base + 256 - val) % 256) := by
  simp only [run_cmp, set_flags_nz, u8not, hc, if_true]
  have hrhs : (255 - val + 1) % 256 = 256 - val := by omega
  rw [hrhs]
  refine ⟨?_, ?_, ?_⟩
  · rw [decide_eq_decide]
    omega
  · rw [decide_eq_decide]
    omega
  · have h8 := and128_iff ((base + (256 - val)) % 256) (by omega)
    rw [decide_eq_decide]
    omega

/-- Witness for the amended C7 theorem at base = 7, operand = 5, carry
set. -/
theorem run_cmp_correct_when_carry_set_witness :
    (run_cmp 7 5 flagsC).c = decide (5 ≤ 7) ∧
    (run_cmp 7 5 flagsC).z = decide (7 = 5) ∧
    (run_cmp 7 5 flagsC).n = decide (128 ≤ (7 + 256 - 5) % 256) :=
  run_cmp_correct_when_carry_set 7 5 flagsC (by decide) (by decide) (by decide) (by decide)

/-! ## `utilities.rs`: the id-handle store `Storage<T>` (claim C10)

`Storage` wraps a `BTreeMap<usize, T>` plus a `next_id` counter; the map
is modelled as an association list with strictly ascending keys. -/

/-- The opaque handle `Id<T>` of `utilities.rs` (a `usize`). -/
structure HandleId where
  val : Nat
deriving DecidableEq, Repr

/-- `Storage<T>` (utilities.rs:20-23): a fresh-key counter and the
key-ordered backing map. -/
structure Storage (T : Type) where
  next_id : Nat
  storage : List (Nat × T)
deriving DecidableEq, Repr

namespace Storage

/-- `BTreeMap::get` on the association list. -/
def find? {T : Type} : List (Nat × T) → Nat → Option T
  | [], _ => none
  | (k0, v0) :: rest, k => if k = k0 then some v0 else find? rest k

/-- `BTreeMap::insert` on the key-ordered association list. -/
def insertKV {T : Type} : List (Nat × T) → Nat → T → List (Nat × T)
  | [], k, v => [(k, v)]
  | (k0, v0) :: rest, k, v =>
    if k < k0 then (k, v) :: (k0, v0) :: rest
    else if k = k0 then (k, v) :: rest
    else (k0, v0) :: insertKV rest k v

/-- `BTreeMap::remove` on the association list (keys are unique, so
removing the first occurrence is removal of the key). -/
def eraseKV {T : Type} : List (Nat × T) → Nat → List (Nat × T)
  | [], _ => []
  | (k0, v0) :: rest, k => if k = k0 then rest else (k0, v0) :: eraseKV rest k

/-- `Storage::new` (utilities.rs:29-34). -/
def new (T : Type) : Storage T := ⟨0, []⟩

/-- `Storage::add` (utilities.rs:36-40): insert under `next_id`, bump
`next_id`, and return `Id(storage.len() - 1)` computed from the length
AFTER the insertion. -/
def add {T : Type} (s : Storage T) (v : T) : HandleId × Storage T :=
  let st := insertKV s.storage s.next_id v
  (⟨st.length - 1⟩, { next_id := s.next_id + 1, storage := st })

/-- `Storage::remove` (utilities.rs:43-45); the source `unwrap`s, so a
missing key is modelled as `none`. -/
def remove {T : Type} (s : Storage T) (id : HandleId) : Option (T × Storage T) :=
  match find? s.storage id.val with
  | none => none
  | some t => some (t, { s with storage := eraseKV s.storage id.val })

/-- `Storage::get` (utilities.rs:51-54); the source `unwrap`s ("assume
the id is valid"), so a missing key is modelled as `none` (a panic). -/
def get? {T : Type} (s : Storage T) (id : HandleId) : Option T :=
  find? s.storage id.val

/-- Structural invariant of a storage: keys are strictly increasing
(hence unique) and below `next_id`. -/
def SInv {T : Type} (s : Storage T) : Prop :=
  (s.storage.map Prod.fst).Pairwise (· < ·) ∧ ∀ p ∈ s.storage, p.1 < s.next_id

/-- `Reached s k`: the storage `s` is obtainable from `Storage::new` by
a sequence of `add`s and (successful) `remove`s, `k` of which were
`remove`s. -/
inductive Reached {T : Type} : Storage T → Nat → Prop
  | new : Reached (Storage.new T) 0
  | add (s : Storage T) (k : Nat) (v : T) :
      Reached s k → Reached (Storage.add s v).2 k
  | remove (s : Storage T) (k : Nat) (id : HandleId) (t : T) (s2 : Storage T) :
      Reached s k → Storage.remove s id = some (t, s2) → Reached s2 (k + 1)

theorem insertKV_fresh {T : Type} (l : List (Nat × T)) (k : Nat) (v : T)
    (h : ∀ p ∈ l, p.1 < k) : insertKV l k v = l ++ [(k, v)] := by
  induction l with
  | nil => rfl
  | cons hd tl ih =>
    have hk := h hd (List.mem_cons_self hd tl)
    simp only [insertKV, if_neg (by omega : ¬ k < hd.1), if_neg (by omega : ¬ k = hd.1)]
    rw [ih (fun p hp => h p (List.mem_cons_of_mem hd hp))]
    rfl

theorem find?_append_fresh {T : Type} (l : List (Nat × T)) (k key : Nat) (v : T)
    (h : key ≠ k) : find? (l ++ [(k, v)]) key = find? l key := by
  induction l with
  | nil => simp [find?, h]
  | cons hd tl ih =>
    by_cases hk : key = hd.1
    · simp [find?, hk]
    · simp only [List.cons_append, find?, if_neg hk]
      exact ih

theorem find?_append_self {T : Type} (l : List (Nat × T)) (k : Nat) (v : T)
    (h : ∀ p ∈ l, p.1 ≠ k) : find? (l ++ [(k, v)]) k = some v := by
  induction l with
  | nil => simp [find?]
  | cons hd tl ih =>
    have hne := h hd (List.mem_cons_self hd tl)
    simp only [List.cons_append, find?]
    rw [if_neg (fun he => hne he.symm)]
    exact ih (fun p hp => h p (List.mem_cons_of_mem hd hp))

theorem eraseKV_length {T : Type} (l : List (Nat × T)) (k : Nat) (t : T)
    (h : find? l k = some t) : (eraseKV l k).length + 1 = l.length := by
  induction l with
  | nil => simp [find?] at h
  | cons hd tl ih =>
    by_cases hk : k = hd.1
    · simp [eraseKV, hk]
    · simp only [find?, if_neg hk] at h
      simp only [eraseKV, if_neg hk, List.length_cons]
      rw [← ih h]

theorem eraseKV_keys_sublist {T : Type} (l : List (Nat × T)) (k : Nat) :
    ((eraseKV l k).map Prod.fst).Sublist (l.map Prod.fst) := by
  induction l with
  | nil => simp [eraseKV]
  | cons hd tl ih =>
    by_cases hk : k = hd.1
    · simp only [eraseKV, if_pos hk, List.map_cons]
      exact List.sublist_cons_self hd.1 (tl.map Prod.fst)
    · simp only [eraseKV, if_neg hk, List.map_cons]
      exact ih.cons₂ hd.1

theorem eraseKV_subset {T : Type} (l : List (Nat × T)) (k : Nat) :
    ∀ p ∈ eraseKV l k, p ∈ l := by
  induction l with
  | nil => simp [eraseKV]
  | cons hd tl ih =>
    by_cases hk : k = hd.1
    · simp only [eraseKV, if_pos hk]
      exact fun p hp => List.mem_cons_of_mem hd hp
    · simp only [eraseKV, if_neg hk]
      intro p hp
      rcases List.mem_cons.mp hp with h | h
      · exact h ▸ List.mem_cons_self hd tl
      · exact List.mem_cons_of_mem hd (ih p h)

/-- Every reachable storage satisfies the structural invariant, and its
size plus the number of removals equals `next_id`. -/
theorem reached_inv {T : Type} (s : Storage T) (k : Nat) (h : Reached s k) :
    SInv s ∧ s.storage.length + k = s.next_id := by
  induction h with
  | new => exact ⟨⟨List.Pairwise.nil, by simp [Storage.new]⟩, rfl⟩
  | add s k v _ ih =>
    obtain ⟨⟨hsort, hbound⟩, hlen⟩ := ih
    have hins := insertKV_fresh s.storage s.next_id v hbound
    refine ⟨⟨?_, ?_⟩, ?_⟩
    · simp only [Storage.add, hins, List.map_append]
      rw [List.pairwise_append]
      refine ⟨hsort, by simp, ?_⟩
      intro a ha b hb
      simp only [List.map_cons, List.map_nil, List.mem_singleton] at hb
      subst hb
      obtain ⟨p, hp, hpa⟩ := List.mem_map.mp ha
      exact hpa ▸ hbound p hp
    · simp only [Storage.add, hins]
      intro p hp
      rcases List.mem_append.mp hp with h | h
      · exact Nat.lt_succ_of_lt (hbound p h)
      · simp only [List.mem_singleton] at h
        subst h
        exact Nat.lt_succ_self _
    · simp only [Storage.add, hins, List.length_append, List.length_singleton]
      omega
  | remove s k id t s2 _ hrem ih =>
    obtain ⟨⟨hsort, hbound⟩, hlen⟩ := ih
    simp only [Storage.remove] at hrem
    rcases hfind : find? s.storage id.val with _ | t0
    · rw [hfind] at hrem
      exact absurd hrem (by simp)
    · rw [hfind] at hrem
      simp only [Option.some.injEq, Prod.mk.injEq] at hrem
      obtain ⟨-, hs2⟩ := hrem
      subst hs2
      refine ⟨⟨?_, ?_⟩, ?_⟩
      · exact hsort.sublist (eraseKV_keys_sublist s.storage id.val)
      · exact fun p hp => hbound p (eraseKV_subset s.storage id.val p hp)
      · have := eraseKV_length s.storage id.val t0 hfind
        simp only at this ⊢
        omega

/-- C10: `Storage::add` stores the new value under the key `next_id`
but hands back `Id(storage.len() - 1)`.  On any reachable storage from
which at least one element has been removed, the returned handle is a
key strictly smaller than `next_id`, so it does not identify the
element just added: resolving the handle yields exactly what that key
held before the add (an older element, or nothing — a panic in
`Storage::get` — if that key was the removed one). -/
theorem storage_add_stale_handle {T : Type} (s : Storage T) (k : Nat) (v : T)
    (hr : Reached s k) (hk : 1 ≤ k) :
    (Storage.add s v).2.storage = insertKV s.storage s.next_id v ∧
    (Storage.add s v).1.val + 1 = (Storage.add s v).2.storage.length ∧
    (Storage.add s v).1.val ≠ s.next_id ∧
    find? (Storage.add s v).2.storage s.next_id = some v ∧
    Storage.get? (Storage.add s v).2 (Storage.add s v).1 =
      Storage.get? s (Storage.add s v).1 := by
  obtain ⟨⟨hsort, hbound⟩, hlen⟩ := reached_inv s k hr
  have hins := insertKV_fresh s.storage s.next_id v hbound
  have hlen2 : (insertKV s.storage s.next_id v).length = s.storage.length + 1 := by
    rw [hins]
    simp
  have hid : (Storage.add s v).1.val = s.storage.length := by
    simp only [Storage.add, hlen2]
    omega
  have hlt : s.storage.length < s.next_id := by omega
  refine ⟨rfl, ?_, ?_, ?_, ?_⟩
  · simp only [Storage.add, hlen2]
    omega
  · rw [hid]
    omega
  · show find? (insertKV s.storage s.next_id v) s.next_id = some v
    rw [hins]
    exact find?_append_self s.storage s.next_id v
      (fun p hp => Nat.ne_of_lt (hbound p hp))
  · show find? (insertKV s.storage s.next_id v) (Storage.add s v).1.val =
      find? s.storage (Storage.add s v).1.val
    rw [hins, hid]
    exact find?_append_fresh s.storage s.next_id s.storage.length v
      (Nat.ne_of_lt hlt)

/-- Witness for C10: reach `{next_id := 2, storage := [(1, 20)]}` by
adding 10 and 20 and removing the handle of 10, then add 30.  The
returned handle is `Id(1)`, which resolves to the old element 20, not
to 30 (which is stored under key 2). -/
theorem storage_add_stale_handle_witness :
    (Storage.add (⟨2, [(1, 20)]⟩ : Storage Nat) 30).2.storage =
        Storage.insertKV [(1, 20)] 2 30 ∧
    (Storage.add (⟨2, [(1, 20)]⟩ : Storage Nat) 30).1.val + 1 =
        (Storage.add (⟨2, [(1, 20)]⟩ : Storage Nat) 30).2.storage.length ∧
    (Storage.add (⟨2, [(1, 20)]⟩ : Storage Nat) 30).1.val ≠
        (⟨2, [(1, 20)]⟩ : Storage Nat).next_id ∧
    Storage.find? (Storage.add (⟨2, [(1, 20)]⟩ : Storage Nat) 30).2.storage
        (⟨2, [(1, 20)]⟩ : Storage Nat).next_id = some 30 ∧
    Storage.get? (Storage.add (⟨2, [(1, 20)]⟩ : Storage Nat) 30).2
        (Storage.add (⟨2, [(1, 20)]⟩ : Storage Nat) 30).1 =
      Storage.get? (⟨2, [(1, 20)]⟩ : Storage Nat)
        (Storage.add (⟨2, [(1, 20)]⟩ : Storage Nat) 30).1 :=
  storage_add_stale_handle (⟨2, [(1, 20)]⟩ : Storage Nat) 1 30
    (Storage.Reached.remove ⟨2, [(0, 10), (1, 20)]⟩ 0 ⟨0⟩ 10 ⟨2, [(1, 20)]⟩
      (Storage.Reached.add ⟨1, [(0, 10)]⟩ 0 20
        (Storage.Reached.add ⟨0, []⟩ 0 10 Storage.Reached.new))
      rfl)
    (by decide)

end Storage

/-! ## `nes6502/opcodes.rs`: addressing modes, opcodes and byte tables

Operand integers are `Nat` (`u8` values are kept `< 256`, `u16` values
`< 65536`, tracked by `ModeWF`/`OpWF`); the signed branch displacement
(`i8`) is an `Int` in `[-128, 128)`.  `x << 8` is written `x * 2 ^ 8`
and the `u8`/`u16` casts are explicit `% 256` / `% 65536`. -/

/-- `AddressingMode` (opcodes.rs:7-35). -/
inductive AddressingMode where
  | Implicit
  | Immediate (v : Nat)
  | ZeroPage (v : Nat)
  | Absolute (v : Nat)
  | Indirect (v : Nat)
  | ZeroPageIndexedX (v : Nat)
  | ZeroPageIndexedY (v : Nat)
  | AbsoluteIndexedX (v : Nat)
  | AbsoluteIndexedY (v : Nat)
  | IndexedIndirect (v : Nat)
  | IndirectIndexed (v : Nat)
deriving DecidableEq, Repr

namespace AddressingMode

/-- `AddressingMode::set_arg1` (opcodes.rs:38-56): single-byte modes
store the byte; two-byte modes overwrite the value with the byte
(`*a = arg as u16`); Implicit ignores it. -/
def set_arg1 (m : AddressingMode) (arg : Nat) : AddressingMode :=
  match m with
  | .Immediate _ => .Immediate arg
  | .ZeroPage _ => .ZeroPage arg
  | .ZeroPageIndexedX _ => .ZeroPageIndexedX arg
  | .ZeroPageIndexedY _ => .ZeroPageIndexedY arg
  | .IndexedIndirect _ => .IndexedIndirect arg
  | .IndirectIndexed _ => .IndirectIndexed arg
  | .Absolute _ => .Absolute arg
  | .Indirect _ => .Indirect arg
  | .AbsoluteIndexedX _ => .AbsoluteIndexedX arg
  | .AbsoluteIndexedY _ => .AbsoluteIndexedY arg
  | .Implicit => .Implicit

/-- `AddressingMode::set_arg2` (opcodes.rs:57-67): two-byte modes add
the high byte (`*a += (arg as u16) << 8`); all others ignore it. -/
def set_arg2 (m : AddressingMode) (arg : Nat) : AddressingMode :=
  match m with
  | .Absolute a => .Absolute (a + arg * 2 ^ 8)
  | .Indirect a => .Indirect (a + arg * 2 ^ 8)
  | .AbsoluteIndexedX a => .AbsoluteIndexedX (a + arg * 2 ^ 8)
  | .AbsoluteIndexedY a => .AbsoluteIndexedY (a + arg * 2 ^ 8)
  | m => m

/-- `AddressingMode::require_arg1` (opcodes.rs:68-82). -/
def require_arg1 (m : AddressingMode) : Bool :=
  match m with
  | .Immediate _ | .ZeroPage _ | .Absolute _ | .Indirect _
  | .ZeroPageIndexedX _ | .ZeroPageIndexedY _
  | .AbsoluteIndexedX _ | .AbsoluteIndexedY _
  | .IndexedIndirect _ | .IndirectIndexed _ => true
  | .Implicit => false

/-- `AddressingMode::require_arg2` (opcodes.rs:84-92). -/
def require_arg2 (m : AddressingMode) : Bool :=
  match m with
  | .Absolute _ | .Indirect _ | .AbsoluteIndexedX _ | .AbsoluteIndexedY _ => true
  | _ => false

/-- `AddressingMode::need_compute` (opcodes.rs:93-104). -/
def need_compute (m : AddressingMode) : Bool :=
  match m with
  | .Indirect _ | .ZeroPageIndexedX _ | .ZeroPageIndexedY _
  | .AbsoluteIndexedX _ | .AbsoluteIndexedY _
  | .IndexedIndirect _ | .IndirectIndexed _ => true
  | _ => false

end AddressingMode

/-- `a as u8` on a signed 8-bit value (two's-complement byte). -/
def byteOfI8 (a : Int) : Nat := (a % 256).toNat

/-- `arg as i8` on a byte (two's-complement reading). -/
def i8OfByte (b : Nat) : Int := if b < 128 then (b : Int) else (b : Int) - 256

/-- `Opcode` (opcodes.rs:142-199): branch instructions carry an `i8`
displacement, `CLD`/`SED` are commented out in the source. -/
inductive Opcode where
  | ADC (m : AddressingMode)
  | AND (m : AddressingMode)
  | ASL (m : AddressingMode)
  | BIT (m : AddressingMode)
  | BPL (d : Int)
  | BMI (d : Int)
  | BVC (d : Int)
  | BVS (d : Int)
  | BCC (d : Int)
  | BCS (d : Int)
  | BNE (d : Int)
  | BEQ (d : Int)
  | BRK
  | CMP (m : AddressingMode)
  | CPX (m : AddressingMode)
  | CPY (m : AddressingMode)
  | DEC (m : AddressingMode)
  | EOR (m : AddressingMode)
  | CLC
  | SEC
  | CLI
  | SEI
  | CLV
  | INC (m : AddressingMode)
  | JMP (m : AddressingMode)
  | JSR (m : AddressingMode)
  | LDA (m : AddressingMode)
  | LDX (m : AddressingMode)
  | LDY (m : AddressingMode)
  | LSR (m : AddressingMode)
  | NOP
  | ORA (m : AddressingMode)
  | TAX
  | TXA
  | DEX
  | INX
  | TAY
  | TYA
  | DEY
  | INY
  | ROL (m : AddressingMode)
  | ROR (m : AddressingMode)
  | RTI
  | RTS
  | SBC (m : AddressingMode)
  | STA (m : AddressingMode)
  | TXS
  | TSX
  | PHA
  | PLA
  | PHP
  | PLP
  | STX (m : AddressingMode)
  | STY (m : AddressingMode)
deriving Repr

namespace Opcode

/-- `Opcode::set_arg1` (opcodes.rs:202-259): mode-carrying opcodes
delegate to the mode; branches store the byte reinterpreted as `i8`;
bare opcodes ignore it. -/
def set_arg1 (o : Opcode) (arg : Nat) : Opcode :=
  match o with
  | .LDA a => .LDA (a.set_arg1 arg)
  | .STA a => .STA (a.set_arg1 arg)
  | .AND a => .AND (a.set_arg1 arg)
  | .ADC a => .ADC (a.set_arg1 arg)
  | .SBC a => .SBC (a.set_arg1 arg)
  | .ASL a => .ASL (a.set_arg1 arg)
  | .BIT a => .BIT (a.set_arg1 arg)
  | .CMP a => .CMP (a.set_arg1 arg)
  | .CPX a => .CPX (a.set_arg1 arg)
  | .CPY a => .CPY (a.set_arg1 arg)
  | .DEC a => .DEC (a.set_arg1 arg)
  | .EOR a => .EOR (a.set_arg1 arg)
  | .INC a => .INC (a.set_arg1 arg)
  | .JMP a => .JMP (a.set_arg1 arg)
  | .JSR a => .JSR (a.set_arg1 arg)
  | .LDX a => .LDX (a.set_arg1 arg)
  | .LDY a => .LDY (a.set_arg1 arg)
  | .LSR a => .LSR (a.set_arg1 arg)
  | .ORA a => .ORA (a.set_arg1 arg)
  | .ROL a => .ROL (a.set_arg1 arg)
  | .ROR a => .ROR (a.set_arg1 arg)
  | .STX a => .STX (a.set_arg1 arg)
  | .STY a => .STY (a.set_arg1 arg)
  | .BPL _ => .BPL (i8OfByte arg)
  | .BMI _ => .BMI (i8OfByte arg)
  | .BVC _ => .BVC (i8OfByte arg)
  | .BVS _ => .BVS (i8OfByte arg)
  | .BCC _ => .BCC (i8OfByte arg)
  | .BCS _ => .BCS (i8OfByte arg)
  | .BNE _ => .BNE (i8OfByte arg)
  | .BEQ _ => .BEQ (i8OfByte arg)
  | o => o

/-- `Opcode::set_arg2` (opcodes.rs:260-317). -/
def set_arg2 (o : Opcode) (arg : Nat) : Opcode :=
  match o with
  | .LDA a => .LDA (a.set_arg2 arg)
  | .STA a => .STA (a.set_arg2 arg)
  | .AND a => .AND (a.set_arg2 arg)
  | .ADC a => .ADC (a.set_arg2 arg)
  | .SBC a => .SBC (a.set_arg2 arg)
  | .ASL a => .ASL (a.set_arg2 arg)
  | .BIT a => .BIT (a.set_arg2 arg)
  | .CMP a => .CMP (a.set_arg2 arg)
  | .CPX a => .CPX (a.set_arg2 arg)
  | .CPY a => .CPY (a.set_arg2 arg)
  | .DEC a => .DEC (a.set_arg2 arg)
  | .EOR a => .EOR (a.set_arg2 arg)
  | .INC a => .INC (a.set_arg2 arg)
  | .JMP a => .JMP (a.set_arg2 arg)
  | .JSR a => .JSR (a.set_arg2 arg)
  | .LDX a => .LDX (a.set_arg2 arg)
  | .LDY a => .LDY (a.set_arg2 arg)
  | .LSR a => .LSR (a.set_arg2 arg)
  | .ORA a => .ORA (a.set_arg2 arg)
  | .ROL a => .ROL (a.set_arg2 arg)
  | .ROR a => .ROR (a.set_arg2 arg)
  | .STX a => .STX (a.set_arg2 arg)
  | .STY a => .STY (a.set_arg2 arg)
  | o => o

/-- `Opcode::require_arg1` (opcodes.rs:319-376): mode-carrying opcodes
delegate; branches need one byte; bare opcodes need none. -/
def require_arg1 (o : Opcode) : Bool :=
  match o with
  | .LDA a | .STA a | .AND a | .ADC a | .SBC a | .ASL a | .BIT a
  | .CMP a | .CPX a | .CPY a | .DEC a | .EOR a | .INC a | .JMP a
  | .JSR a | .LDX a | .LDY a | .LSR a | .ORA a | .ROL a | .ROR a
  | .STX a | .STY a => a.require_arg1
  | .BPL _ | .BMI _ | .BVC _ | .BVS _ | .BCC _ | .BCS _ | .BNE _
  | .BEQ _ => true
  | _ => false

/-- `Opcode::require_arg2` (opcodes.rs:377-434). -/
def require_arg2 (o : Opcode) : Bool :=
  match o with
  | .LDA a | .STA a | .AND a | .ADC a | .SBC a | .ASL a | .BIT a
  | .CMP a | .CPX a | .CPY a | .DEC a | .EOR a | .INC a | .JMP a
  | .JSR a | .LDX a | .LDY a | .LSR a | .ORA a | .ROL a | .ROR a
  | .STX a | .STY a => a.require_arg2
  | _ => false

/-- `Opcode::need_compute` (opcodes.rs:435-492). -/
def need_compute (o : Opcode) : Bool :=
  match o with
  | .LDA a | .STA a | .AND a | .ADC a | .SBC a | .ASL a | .BIT a
  | .CMP a | .CPX a | .CPY a | .DEC a | .EOR a | .INC a | .JMP a
  | .JSR a | .LDX a | .LDY a | .LSR a | .ORA a | .ROL a | .ROR a
  | .STX a | .STY a => a.need_compute
  | _ => false

end Opcode

/-- `From<u8> for Opcode` (opcodes.rs:553-739): the 256-entry decode
table; unknown bytes decode to `NOP`. -/
def opcodeFromByte (value : Nat) : Opcode :=
  match value with
  | 0x61 => .ADC (.IndexedIndirect 0)
  | 0x65 => .ADC (.ZeroPage 0)
  | 0x69 => .ADC (.Immediate 0)
  | 0x6D => .ADC (.Absolute 0)
  | 0x71 => .ADC (.IndirectIndexed 0)
  | 0x75 => .ADC (.ZeroPageIndexedX 0)
  | 0x79 => .ADC (.AbsoluteIndexedY 0)
  | 0x7D => .ADC (.AbsoluteIndexedX 0)
  | 0x21 => .AND (.IndexedIndirect 0)
  | 0x25 => .AND (.ZeroPage 0)
  | 0x29 => .AND (.Immediate 0)
  | 0x2D => .AND (.Absolute 0)
  | 0x31 => .AND (.IndirectIndexed 0)
  | 0x35 => .AND (.ZeroPageIndexedX 0)
  | 0x39 => .AND (.AbsoluteIndexedY 0)
  | 0x3D => .AND (.AbsoluteIndexedX 0)
  | 0x06 => .ASL (.ZeroPage 0)
  | 0x0A => .ASL .Implicit
  | 0x0E => .ASL (.ZeroPageIndexedX 0)
  | 0x16 => .ASL (.Absolute 0)
  | 0x1E => .ASL (.AbsoluteIndexedX 0)
  | 0x24 => .BIT (.ZeroPage 0)
  | 0x2C => .BIT (.Absolute 0)
  | 0x10 => .BPL 0
  | 0x30 => .BMI 0
  | 0x50 => .BVC 0
  | 0x70 => .BVS 0
  | 0x90 => .BCC 0
  | 0xB0 => .BCS 0
  | 0xD0 => .BNE 0
  | 0xF0 => .BEQ 0
  | 0x00 => .BRK
  | 0xC1 => .CMP (.IndexedIndirect 0)
  | 0xC5 => .CMP (.ZeroPage 0)
  | 0xC9 => .CMP (.Immediate 0)
  | 0xCD => .CMP (.Absolute 0)
  | 0xD1 => .CMP (.IndirectIndexed 0)
  | 0xD5 => .CMP (.ZeroPageIndexedX 0)
  | 0xD9 => .CMP (.AbsoluteIndexedY 0)
  | 0xDD => .CMP (.AbsoluteIndexedX 0)
  | 0xE0 => .CPX (.Immediate 0)
  | 0xE4 => .CPX (.ZeroPage 0)
  | 0xEC => .CPX (.Absolute 0)
  | 0xC0 => .CPY (.Immediate 0)
  | 0xC4 => .CPY (.ZeroPage 0)
  | 0xCC => .CPY (.Absolute 0)
  | 0xC6 => .DEC (.ZeroPage 0)
  | 0xCE => .DEC (.Absolute 0)
  | 0xD6 => .DEC (.ZeroPageIndexedX 0)
  | 0xDE => .DEC (.AbsoluteIndexedX 0)
  | 0x41 => .EOR (.IndexedIndirect 0)
  | 0x45 => .EOR (.ZeroPage 0)
  | 0x49 => .EOR (.Immediate 0)
  | 0x4D => .EOR (.Absolute 0)
  | 0x51 => .EOR (.IndirectIndexed 0)
  | 0x55 => .EOR (.ZeroPageIndexedX 0)
  | 0x59 => .EOR (.AbsoluteIndexedY 0)
  | 0x5D => .EOR (.AbsoluteIndexedX 0)
  | 0x18 => .CLC
  | 0x38 => .SEC
  | 0x58 => .CLI
  | 0x78 => .SEI
  | 0xB8 => .CLV
  | 0xE6 => .INC (.ZeroPage 0)
  | 0xEE => .INC (.Absolute 0)
  | 0xF6 => .INC (.ZeroPageIndexedX 0)
  | 0xFE => .INC (.AbsoluteIndexedX 0)
  | 0x4C => .JMP (.Absolute 0)
  | 0x6C => .JMP (.Indirect 0)
  | 0x20 => .JSR (.Absolute 0)
  | 0xA1 => .LDA (.IndexedIndirect 0)
  | 0xA5 => .LDA (.ZeroPage 0)
  | 0xA9 => .LDA (.Immediate 0)
  | 0xAD => .LDA (.Absolute 0)
  | 0xB1 => .LDA (.IndirectIndexed 0)
  | 0xB5 => .LDA (.ZeroPageIndexedX 0)
  | 0xB9 => .LDA (.AbsoluteIndexedY 0)
  | 0xBD => .LDA (.AbsoluteIndexedX 0)
  | 0xA2 => .LDX (.Immediate 0)
  | 0xA6 => .LDX (.ZeroPage 0)
  | 0xAE => .LDX (.Absolute 0)
  | 0xB6 => .LDX (.ZeroPageIndexedY 0)
  | 0xBE => .LDX (.AbsoluteIndexedY 0)
  | 0xA0 => .LDY (.Immediate 0)
  | 0xA4 => .LDY (.ZeroPage 0)
  | 0xAC => .LDY (.Absolute 0)
  | 0xB4 => .LDY (.ZeroPageIndexedY 0)
  | 0xBC => .LDY (.AbsoluteIndexedY 0)
  | 0x4A => .LSR .Implicit
  | 0x46 => .LSR (.ZeroPage 0)
  | 0x4E => .LSR (.Absolute 0)
  | 0x56 => .LSR (.ZeroPageIndexedX 0)
  | 0x5E => .LSR (.AbsoluteIndexedX 0)
  | 0xEA => .NOP
  | 0x01 => .ORA (.IndexedIndirect 0)
  | 0x05 => .ORA (.ZeroPage 0)
  | 0x09 => .ORA (.Immediate 0)
  | 0x0D => .ORA (.Absolute 0)
  | 0x11 => .ORA (.IndirectIndexed 0)
  | 0x15 => .ORA (.ZeroPageIndexedX 0)
  | 0x19 => .ORA (.AbsoluteIndexedY 0)
  | 0x1D => .ORA (.AbsoluteIndexedX 0)
  | 0xAA => .TAX
  | 0x8A => .TXA
  | 0xCA => .DEX
  | 0xE8 => .INX
  | 0xA8 => .TAY
  | 0x98 => .TYA
  | 0x88 => .DEY
  | 0xC8 => .INY
  | 0x2A => .ROL .Implicit
  | 0x26 => .ROL (.ZeroPage 0)
  | 0x2E => .ROL (.Absolute 0)
  | 0x36 => .ROL (.ZeroPageIndexedX 0)
  | 0x3E => .ROL (.AbsoluteIndexedX 0)
  | 0x6A => .ROR .Implicit
  | 0x66 => .ROR (.ZeroPage 0)
  | 0x6E => .ROR (.Absolute 0)
  | 0x76 => .ROR (.ZeroPageIndexedX 0)
  | 0x7E => .ROR (.AbsoluteIndexedX 0)
  | 0x40 => .RTI
  | 0x60 => .RTS
  | 0xE1 => .SBC (.IndexedIndirect 0)
  | 0xE5 => .SBC (.ZeroPage 0)
  | 0xE9 => .SBC (.Immediate 0)
  | 0xED => .SBC (.Absolute 0)
  | 0xF1 => .SBC (.IndirectIndexed 0)
  | 0xF5 => .SBC (.ZeroPageIndexedX 0)
  | 0xF9 => .SBC (.AbsoluteIndexedY 0)
  | 0xFD => .SBC (.AbsoluteIndexedX 0)
  | 0x81 => .STA (.IndexedIndirect 0)
  | 0x85 => .STA (.ZeroPage 0)
  | 0x8D => .STA (.Absolute 0)
  | 0x91 => .STA (.IndirectIndexed 0)
  | 0x95 => .STA (.ZeroPageIndexedX 0)
  | 0x99 => .STA (.AbsoluteIndexedY 0)
  | 0x9D => .STA (.AbsoluteIndexedX 0)
  | 0x9A => .TXS
  | 0xBA => .TSX
  | 0x48 => .PHA
  | 0x68 => .PLA
  | 0x08 => .PHP
  | 0x28 => .PLP
  | 0x86 => .STX (.ZeroPage 0)
  | 0x8E => .STX (.Absolute 0)
  | 0x96 => .STX (.ZeroPageIndexedY 0)
  | 0x84 => .STY (.ZeroPage 0)
  | 0x8C => .STY (.Absolute 0)
  | 0x94 => .STY (.ZeroPageIndexedY 0)
  | _ => .NOP

/-- `opcode_with_u16` (opcodes.rs:741-743): opcode byte, then the
operand little-endian (`(arg & 0xFF) as u8`, `(arg >> 8) as u8`). -/
def opcode_with_u16 (opcode arg : Nat) : List Nat :=
  [opcode, arg % 256, arg / 2 ^ 8 % 256]

/-- `ParseError` (opcodes.rs:745-749); the diagnostic `String` payloads
of the source are omitted. -/
inductive ParseError where
  | InvalidOpcode
  | InvalidAddressMode
deriving DecidableEq, Repr

/-- `TryFrom<Opcode> for Vec<u8>` (opcodes.rs:751-1005): the encode
table; each mnemonic lists its legal addressing modes and falls through
to `InvalidAddressMode` otherwise. -/
def opcodeToBytes (value : Opcode) : Except ParseError (List Nat) :=
  match value with
  | .ADC (.IndexedIndirect a) => .ok [0x61, a]
  | .ADC (.ZeroPage a) => .ok [0x65, a]
  | .ADC (.Immediate a) => .ok [0x69, a]
  | .ADC (.Absolute a) => .ok (opcode_with_u16 0x6D a)
  | .ADC (.IndirectIndexed a) => .ok [0x71, a]
  | .ADC (.ZeroPageIndexedX a) => .ok [0x75, a]
  | .ADC (.AbsoluteIndexedY a) => .ok (opcode_with_u16 0x79 a)
  | .ADC (.AbsoluteIndexedX a) => .ok (opcode_with_u16 0x7D a)
  | .ADC _ => .error .InvalidAddressMode
  | .AND (.IndexedIndirect a) => .ok [0x21, a]
  | .AND (.ZeroPage a) => .ok [0x25, a]
  | .AND (.Immediate a) => .ok [0x29, a]
  | .AND (.Absolute a) => .ok (opcode_with_u16 0x2D a)
  | .AND (.IndirectIndexed a) => .ok [0x31, a]
  | .AND (.ZeroPageIndexedX a) => .ok [0x35, a]
  | .AND (.AbsoluteIndexedY a) => .ok (opcode_with_u16 0x39 a)
  | .AND (.AbsoluteIndexedX a) => .ok (opcode_with_u16 0x3D a)
  | .AND _ => .error .InvalidAddressMode
  | .ASL (.ZeroPage a) => .ok [0x06, a]
  | .ASL .Implicit => .ok [0x0A]
  | .ASL (.ZeroPageIndexedX a) => .ok [0x0E, a]
  | .ASL (.Absolute a) => .ok (opcode_with_u16 0x16 a)
  | .ASL (.AbsoluteIndexedX a) => .ok (opcode_with_u16 0x1E a)
  | .ASL _ => .error .InvalidAddressMode
  | .BIT (.ZeroPage a) => .ok [0x24, a]
  | .BIT (.Absolute a) => .ok (opcode_with_u16 0x2C a)
  | .BIT _ => .error .InvalidAddressMode
  | .BPL a => .ok [0x10, byteOfI8 a]
  | .BMI a => .ok [0x30, byteOfI8 a]
  | .BVC a => .ok [0x50, byteOfI8 a]
  | .BVS a => .ok [0x70, byteOfI8 a]
  | .BCC a => .ok [0x90, byteOfI8 a]
  | .BCS a => .ok [0xB0, byteOfI8 a]
  | .BNE a => .ok [0xD0, byteOfI8 a]
  | .BEQ a => .ok [0xF0, byteOfI8 a]
  | .BRK => .ok [0x00]
  | .CMP (.IndexedIndirect a) => .ok [0xC1, a]
  | .CMP (.ZeroPage a) => .ok [0xC5, a]
  | .CMP (.Immediate a) => .ok [0xC9, a]
  | .CMP (.Absolute a) => .ok (opcode_with_u16 0xCD a)
  | .CMP (.IndirectIndexed a) => .ok [0xD1, a]
  | .CMP (.ZeroPageIndexedX a) => .ok [0xD5, a]
  | .CMP (.AbsoluteIndexedY a) => .ok (opcode_with_u16 0xD9 a)
  | .CMP (.AbsoluteIndexedX a) => .ok (opcode_with_u16 0xDD a)
  | .CMP _ => .error .InvalidAddressMode
  | .CPX (.Immediate a) => .ok [0xE0, a]
  | .CPX (.ZeroPage a) => .ok [0xE4, a]
  | .CPX (.Absolute a) => .ok (opcode_with_u16 0xEC a)
  | .CPX _ => .error .InvalidAddressMode
  | .CPY (.Immediate a) => .ok [0xC0, a]
  | .CPY (.ZeroPage a) => .ok [0xC4, a]
  | .CPY (.Absolute a) => .ok (opcode_with_u16 0xCC a)
  | .CPY _ => .error .InvalidAddressMode
  | .DEC (.ZeroPage a) => .ok [0xC6, a]
  | .DEC (.Absolute a) => .ok (opcode_with_u16 0xCE a)
  | .DEC (.ZeroPageIndexedX a) => .ok [0xD6, a]
  | .DEC (.AbsoluteIndexedX a) => .ok (opcode_with_u16 0xDE a)
  | .DEC _ => .error .InvalidAddressMode
  | .EOR (.IndexedIndirect a) => .ok [0x41, a]
  | .EOR (.ZeroPage a) => .ok [0x45, a]
  | .EOR (.Immediate a) => .ok [0x49, a]
  | .EOR (.Absolute a) => .ok (opcode_with_u16 0x4D a)
  | .EOR (.IndirectIndexed a) => .ok [0x51, a]
  | .EOR (.ZeroPageIndexedX a) => .ok [0x55, a]
  | .EOR (.AbsoluteIndexedY a) => .ok (opcode_with_u16 0x59 a)
  | .EOR (.AbsoluteIndexedX a) => .ok (opcode_with_u16 0x5D a)
  | .EOR _ => .error .InvalidAddressMode
  | .CLC => .ok [0x18]
  | .SEC => .ok [0x38]
  | .CLI => .ok [0x58]
  | .SEI => .ok [0x78]
  | .CLV => .ok [0xB8]
  | .INC (.ZeroPage a) => .ok [0xE6, a]
  | .INC (.Absolute a) => .ok (opcode_with_u16 0xEE a)
  | .INC (.ZeroPageIndexedX a) => .ok [0xF6, a]
  | .INC (.AbsoluteIndexedX a) => .ok (opcode_with_u16 0xFE a)
  | .INC _ => .error .InvalidAddressMode
  | .JMP (.Absolute a) => .ok (opcode_with_u16 0x4C a)
  | .JMP (.Indirect a) => .ok (opcode_with_u16 0x6C a)
  | .JMP _ => .error .InvalidAddressMode
  | .JSR (.Absolute a) => .ok (opcode_with_u16 0x20 a)
  | .JSR _ => .error .InvalidAddressMode
  | .LDA (.IndexedIndirect a) => .ok [0xA1, a]
  | .LDA (.ZeroPage a) => .ok [0xA5, a]
  | .LDA (.Immediate a) => .ok [0xA9, a]
  | .LDA (.Absolute a) => .ok (opcode_with_u16 0xAD a)
  | .LDA (.IndirectIndexed a) => .ok [0xB1, a]
  | .LDA (.ZeroPageIndexedX a) => .ok [0xB5, a]
  | .LDA (.AbsoluteIndexedY a) => .ok (opcode_with_u16 0xB9 a)
  | .LDA (.AbsoluteIndexedX a) => .ok (opcode_with_u16 0xBD a)
  | .LDA _ => .error .InvalidAddressMode
  | .LDX (.Immediate a) => .ok [0xA2, a]
  | .LDX (.ZeroPage a) => .ok [0xA6, a]
  | .LDX (.Absolute a) => .ok (opcode_with_u16 0xAE a)
  | .LDX (.ZeroPageIndexedY a) => .ok [0xB6, a]
  | .LDX (.AbsoluteIndexedY a) => .ok (opcode_with_u16 0xBE a)
  | .LDX _ => .error .InvalidAddressMode
  | .LDY (.Immediate a) => .ok [0xA0, a]
  | .LDY (.ZeroPage a) => .ok [0xA4, a]
  | .LDY (.Absolute a) => .ok (opcode_with_u16 0xAC a)
  | .LDY (.ZeroPageIndexedY a) => .ok [0xB4, a]
  | .LDY (.AbsoluteIndexedY a) => .ok (opcode_with_u16 0xBC a)
  | .LDY _ => .error .InvalidAddressMode
  | .LSR .Implicit => .ok [0x4A]
  | .LSR (.ZeroPage a) => .ok [0x46, a]
  | .LSR (.Absolute a) => .ok (opcode_with_u16 0x4E a)
  | .LSR (.ZeroPageIndexedX a) => .ok [0x56, a]
  | .LSR (.AbsoluteIndexedX a) => .ok (opcode_with_u16 0x5E a)
  | .LSR _ => .error .InvalidAddressMode
  | .NOP => .ok [0xEA]
  | .ORA (.IndexedIndirect a) => .ok [0x01, a]
  | .ORA (.ZeroPage a) => .ok [0x05, a]
  | .ORA (.Immediate a) => .ok [0x09, a]
  | .ORA (.Absolute a) => .ok (opcode_with_u16 0x0D a)
  | .ORA (.IndirectIndexed a) => .ok [0x11, a]
  | .ORA (.ZeroPageIndexedX a) => .ok [0x15, a]
  | .ORA (.AbsoluteIndexedY a) => .ok (opcode_with_u16 0x19 a)
  | .ORA (.AbsoluteIndexedX a) => .ok (opcode_with_u16 0x1D a)
  | .ORA _ => .error .InvalidAddressMode
  | .TAX => .ok [0xAA]
  | .TXA => .ok [0x8A]
  | .DEX => .ok [0xCA]
  | .INX => .ok [0xE8]
  | .TAY => .ok [0xA8]
  | .TYA => .ok [0x98]
  | .DEY => .ok [0x88]
  | .INY => .ok [0xC8]
  | .ROL .Implicit => .ok [0x2A]
  | .ROL (.ZeroPage a) => .ok [0x26, a]
  | .ROL (.Absolute a) => .ok (opcode_with_u16 0x2E a)
  | .ROL (.ZeroPageIndexedX a) => .ok [0x36, a]
  | .ROL (.AbsoluteIndexedX a) => .ok (opcode_with_u16 0x3E a)
  | .ROL _ => .error .InvalidAddressMode
  | .ROR .Implicit => .ok [0x6A]
  | .ROR (.ZeroPage a) => .ok [0x66, a]
  | .ROR (.Absolute a) => .ok (opcode_with_u16 0x6E a)
  | .ROR (.ZeroPageIndexedX a) => .ok [0x76, a]
  | .ROR (.AbsoluteIndexedX a) => .ok (opcode_with_u16 0x7E a)
  | .ROR _ => .error .InvalidAddressMode
  | .RTI => .ok [0x40]
  | .RTS => .ok [0x60]
  | .SBC (.IndexedIndirect a) => .ok [0xE1, a]
  | .SBC (.ZeroPage a) => .ok [0xE5, a]
  | .SBC (.Immediate a) => .ok [0xE9, a]
  | .SBC (.Absolute a) => .ok (opcode_with_u16 0xED a)
  | .SBC (.IndirectIndexed a) => .ok [0xF1, a]
  | .SBC (.ZeroPageIndexedX a) => .ok [0xF5, a]
  | .SBC (.AbsoluteIndexedY a) => .ok (opcode_with_u16 0xF9 a)
  | .SBC (.AbsoluteIndexedX a) => .ok (opcode_with_u16 0xFD a)
  | .SBC _ => .error .InvalidAddressMode
  | .STA (.IndexedIndirect a) => .ok [0x81, a]
  | .STA (.ZeroPage a) => .ok [0x85, a]
  | .STA (.Absolute a) => .ok (opcode_with_u16 0x8D a)
  | .STA (.IndirectIndexed a) => .ok [0x91, a]
  | .STA (.ZeroPageIndexedX a) => .ok [0x95, a]
  | .STA (.AbsoluteIndexedY a) => .ok (opcode_with_u16 0x99 a)
  | .STA (.AbsoluteIndexedX a) => .ok (opcode_with_u16 0x9D a)
  | .STA _ => .error .InvalidAddressMode
  | .TXS => .ok [0x9A]
  | .TSX => .ok [0xBA]
  | .PHA => .ok [0x48]
  | .PLA => .ok [0x68]
  | .PHP => .ok [0x08]
  | .PLP => .ok [0x28]
  | .STX (.ZeroPage a) => .ok [0x86, a]
  | .STX (.Absolute a) => .ok (opcode_with_u16 0x8E a)
  | .STX (.ZeroPageIndexedY a) => .ok [0x96, a]
  | .STX _ => .error .InvalidAddressMode
  | .STY (.ZeroPage a) => .ok [0x84, a]
  | .STY (.Absolute a) => .ok (opcode_with_u16 0x8C a)
  | .STY (.ZeroPageIndexedY a) => .ok [0x94, a]
  | .STY _ => .error .InvalidAddressMode

/-- The decode driver of the claim (the CPU's Fetch/Arg1/Arg2 states,
nes6502.rs:471-494): look the first byte up with `Opcode::from`, then
feed the remaining 0, 1 or 2 operand bytes through
`set_arg1`/`set_arg2` as demanded by `require_arg1`/`require_arg2`. -/
def decodeList (bs : List Nat) : Option Opcode :=
  match bs with
  | [] => none
  | b :: rest =>
    let op := opcodeFromByte b
    if op.require_arg1 then
      match rest with
      | [a1] => if op.require_arg2 then none else some (op.set_arg1 a1)
      | [a1, a2] =>
        if op.require_arg2 then some ((op.set_arg1 a1).set_arg2 a2) else none
      | _ => none
    else
      match rest with
      | [] => some op
      | _ => none

/-- Operand bounds: one-byte operands are `u8`, two-byte operands are
`u16`. -/
def ModeWF (m : AddressingMode) : Prop :=
  match m with
  | .Implicit => True
  | .Immediate v | .ZeroPage v | .ZeroPageIndexedX v | .ZeroPageIndexedY v
  | .IndexedIndirect v | .IndirectIndexed v => v < 256
  | .Absolute v | .Indirect v | .AbsoluteIndexedX v | .AbsoluteIndexedY v =>
    v < 65536

/-- Operand bounds for a whole opcode: branch displacements are `i8`. -/
def OpWF (o : Opcode) : Prop :=
  match o with
  | .LDA a | .STA a | .AND a | .ADC a | .SBC a | .ASL a | .BIT a
  | .CMP a | .CPX a | .CPY a | .DEC a | .EOR a | .INC a | .JMP a
  | .JSR a | .LDX a | .LDY a | .LSR a | .ORA a | .ROL a | .ROR a
  | .STX a | .STY a => ModeWF a
  | .BPL d | .BMI d | .BVC d | .BVS d | .BCC d | .BCS d | .BNE d
  | .BEQ d => -128 ≤ d ∧ d < 128
  | _ => True

/-- C6 as a predicate on one opcode: if the byte encoding succeeds,
decoding that encoding gives back the same opcode. -/
def RoundTrips (op : Opcode) : Prop :=
  match opcodeToBytes op with
  | .ok bs => decodeList bs = some op
  | .error _ => True

theorem u16_recompose (v : Nat) (hv : v < 65536) :
    v % 256 + v / 2 ^ 8 % 256 * 2 ^ 8 = v := by omega

theorem i8_roundtrip (a : Int) (h1 : -128 ≤ a) (h2 : a < 128) :
    i8OfByte (byteOfI8 a) = a := by
  unfold byteOfI8 i8OfByte
  omega

theorem dec_u16_step (f : Nat → Opcode) (c v : Nat) (hv : v < 65536)
    (hrt : decodeList [c, v % 256, v / 2 ^ 8 % 256] =
      some (f (v % 256 + v / 2 ^ 8 % 256 * 2 ^ 8))) :
    decodeList [c, v % 256, v / 2 ^ 8 % 256] = some (f v) := by
  rw [hrt, u16_recompose v hv]

theorem dec_i8_step (f : Int → Opcode) (c : Nat) (a : Int)
    (h1 : -128 ≤ a) (h2 : a < 128)
    (hrt : decodeList [c, byteOfI8 a] = some (f (i8OfByte (byteOfI8 a)))) :
    decodeList [c, byteOfI8 a] = some (f a) := by
  rw [hrt, i8_roundtrip a h1 h2]

/-- C6: for every opcode with in-range operands whose byte encoding
succeeds, decoding the encoding — `Opcode::from` on the first byte,
then `set_arg1`/`set_arg2` on the 0, 1 or 2 operand bytes — yields the
same opcode variant with the same addressing mode and operand. -/
theorem opcode_roundtrip (op : Opcode) (h : OpWF op) : RoundTrips op := by
  cases op with
  | ADC m =>
    cases m <;> try trivial
    case Absolute v => exact dec_u16_step (fun w => .ADC (.Absolute w)) 0x6D v h rfl
    case AbsoluteIndexedX v =>
      exact dec_u16_step (fun w => .ADC (.AbsoluteIndexedX w)) 0x7D v h rfl
    case AbsoluteIndexedY v =>
      exact dec_u16_step (fun w => .ADC (.AbsoluteIndexedY w)) 0x79 v h rfl
  | AND m =>
    cases m <;> try trivial
    case Absolute v => exact dec_u16_step (fun w => .AND (.Absolute w)) 0x2D v h rfl
    case AbsoluteIndexedX v =>
      exact dec_u16_step (fun w => .AND (.AbsoluteIndexedX w)) 0x3D v h rfl
    case AbsoluteIndexedY v =>
      exact dec_u16_step (fun w => .AND (.AbsoluteIndexedY w)) 0x39 v h rfl
  | ASL m =>
    cases m <;> try trivial
    case Absolute v => exact dec_u16_step (fun w => .ASL (.Absolute w)) 0x16 v h rfl
    case AbsoluteIndexedX v =>
      exact dec_u16_step (fun w => .ASL (.AbsoluteIndexedX w)) 0x1E v h rfl
  | BIT m =>
    cases m <;> try trivial
    case Absolute v => exact dec_u16_step (fun w => .BIT (.Absolute w)) 0x2C v h rfl
  | BPL d => exact dec_i8_step (fun w => .BPL w) 0x10 d h.1 h.2 rfl
  | BMI d => exact dec_i8_step (fun w => .BMI w) 0x30 d h.1 h.2 rfl
  | BVC d => exact dec_i8_step (fun w => .BVC w) 0x50 d h.1 h.2 rfl
  | BVS d => exact dec_i8_step (fun w => .BVS w) 0x70 d h.1 h.2 rfl
  | BCC d => exact dec_i8_step (fun w => .BCC w) 0x90 d h.1 h.2 rfl
  | BCS d => exact dec_i8_step (fun w => .BCS w) 0xB0 d h.1 h.2 rfl
  | BNE d => exact dec_i8_step (fun w => .BNE w) 0xD0 d h.1 h.2 rfl
  | BEQ d => exact dec_i8_step (fun w => .BEQ w) 0xF0 d h.1 h.2 rfl
  | BRK => exact rfl
  | CMP m =>
    cases m <;> try trivial
    case Absolute v => exact dec_u16_step (fun w => .CMP (.Absolute w)) 0xCD v h rfl
    case AbsoluteIndexedX v =>
      exact dec_u16_step (fun w => .CMP (.AbsoluteIndexedX w)) 0xDD v h rfl
    case AbsoluteIndexedY v =>
      exact dec_u16_step (fun w => .CMP (.AbsoluteIndexedY w)) 0xD9 v h rfl
  | CPX m =>
    cases m <;> try trivial
    case Absolute v => exact dec_u16_step (fun w => .CPX (.Absolute w)) 0xEC v h rfl
  | CPY m =>
    cases m <;> try trivial
    case Absolute v => exact dec_u16_step (fun w => .CPY (.Absolute w)) 0xCC v h rfl
  | DEC m =>
    cases m <;> try trivial
    case Absolute v => exact dec_u16_step (fun w => .DEC (.Absolute w)) 0xCE v h rfl
    case AbsoluteIndexedX v =>
      exact dec_u16_step (fun w => .DEC (.AbsoluteIndexedX w)) 0xDE v h rfl
  | EOR m =>
    cases m <;> try trivial
    case Absolute v => exact dec_u16_step (fun w => .EOR (.Absolute w)) 0x4D v h rfl
    case AbsoluteIndexedX v =>
      exact dec_u16_step (fun w => .EOR (.AbsoluteIndexedX w)) 0x5D v h rfl
    case AbsoluteIndexedY v =>
      exact dec_u16_step (fun w => .EOR (.AbsoluteIndexedY w)) 0x59 v h rfl
  | CLC => exact rfl
  | SEC => exact rfl
  | CLI => exact rfl
  | SEI => exact rfl
  | CLV => exact rfl
  | INC m =>
    cases m <;> try trivial
    case Absolute v => exact dec_u16_step (fun w => .INC (.Absolute w)) 0xEE v h rfl
    case AbsoluteIndexedX v =>
      exact dec_u16_step (fun w => .INC (.AbsoluteIndexedX w)) 0xFE v h rfl
  | JMP m =>
    cases m <;> try trivial
    case Absolute v => exact dec_u16_step (fun w => .JMP (.Absolute w)) 0x4C v h rfl
    case Indirect v => exact dec_u16_step (fun w => .JMP (.Indirect w)) 0x6C v h rfl
  | JSR m =>
    cases m <;> try trivial
    case Absolute v => exact dec_u16_step (fun w => .JSR (.Absolute w)) 0x20 v h rfl
  | LDA m =>
    cases m <;> try trivial
    case Absolute v => exact dec_u16_step (fun w => .LDA (.Absolute w)) 0xAD v h rfl
    case AbsoluteIndexedX v =>
      exact dec_u16_step (fun w => .LDA (.AbsoluteIndexedX w)) 0xBD v h rfl
    case AbsoluteIndexedY v =>
      exact dec_u16_step (fun w => .LDA (.AbsoluteIndexedY w)) 0xB9 v h rfl
  | LDX m =>
    cases m <;> try trivial
    case Absolute v => exact dec_u16_step (fun w => .LDX (.Absolute w)) 0xAE v h rfl
    case AbsoluteIndexedY v =>
      exact dec_u16_step (fun w => .LDX (.AbsoluteIndexedY w)) 0xBE v h rfl
  | LDY m =>
    cases m <;> try trivial
    case Absolute v => exact dec_u16_step (fun w => .LDY (.Absolute w)) 0xAC v h rfl
    case AbsoluteIndexedY v =>
      exact dec_u16_step (fun w => .LDY (.AbsoluteIndexedY w)) 0xBC v h rfl
  | LSR m =>
    cases m <;> try trivial
    case Absolute v => exact dec_u16_step (fun w => .LSR (.Absolute w)) 0x4E v h rfl
    case AbsoluteIndexedX v =>
      exact dec_u16_step (fun w => .LSR (.AbsoluteIndexedX w)) 0x5E v h rfl
  | NOP => exact rfl
  | ORA m =>
    cases m <;> try trivial
    case Absolute v => exact dec_u16_step (fun w => .ORA (.Absolute w)) 0x0D v h rfl
    case AbsoluteIndexedX v =>
      exact dec_u16_step (fun w => .ORA (.AbsoluteIndexedX w)) 0x1D v h rfl
    case AbsoluteIndexedY v =>
      exact dec_u16_step (fun w => .ORA (.AbsoluteIndexedY w)) 0x19 v h rfl
  | TAX => exact rfl
  | TXA => exact rfl
  | DEX => exact rfl
  | INX => exact rfl
  | TAY => exact rfl
  | TYA => exact rfl
  | DEY => exact rfl
  | INY => exact rfl
  | ROL m =>
    cases m <;> try trivial
    case Absolute v => exact dec_u16_step (fun w => .ROL (.Absolute w)) 0x2E v h rfl
    case AbsoluteIndexedX v =>
      exact dec_u16_step (fun w => .ROL (.AbsoluteIndexedX w)) 0x3E v h rfl
  | ROR m =>
    cases m <;> try trivial
    case Absolute v => exact dec_u16_step (fun w => .ROR (.Absolute w)) 0x6E v h rfl
    case AbsoluteIndexedX v =>
      exact dec_u16_step (fun w => .ROR (.AbsoluteIndexedX w)) 0x7E v h rfl
  | RTI => exact rfl
  | RTS => exact rfl
  | SBC m =>
    cases m <;> try trivial
    case Absolute v => exact dec_u16_step (fun w => .SBC (.Absolute w)) 0xED v h rfl
    case AbsoluteIndexedX v =>
      exact dec_u16_step (fun w => .SBC (.AbsoluteIndexedX w)) 0xFD v h rfl
    case AbsoluteIndexedY v =>
      exact dec_u16_step (fun w => .SBC (.AbsoluteIndexedY w)) 0xF9 v h rfl
  | STA m =>
    cases m <;> try trivial
    case Absolute v => exact dec_u16_step (fun w => .STA (.Absolute w)) 0x8D v h rfl
    case AbsoluteIndexedX v =>
      exact dec_u16_step (fun w => .STA (.AbsoluteIndexedX w)) 0x9D v h rfl
    case AbsoluteIndexedY v =>
      exact dec_u16_step (fun w => .STA (.AbsoluteIndexedY w)) 0x99 v h rfl
  | TXS => exact rfl
  | TSX => exact rfl
  | PHA => exact rfl
  | PLA => exact rfl
  | PHP => exact rfl
  | PLP => exact rfl
  | STX m =>
    cases m <;> try trivial
    case Absolute v => exact dec_u16_step (fun w => .STX (.Absolute w)) 0x8E v h rfl
  | STY m =>
    cases m <;> try trivial
    case Absolute v => exact dec_u16_step (fun w => .STY (.Absolute w)) 0x8C v h rfl

/-- Witness for C6 at `LDA $1234` (a three-byte absolute encoding). -/
theorem opcode_roundtrip_witness : RoundTrips (Opcode.LDA (.Absolute 0x1234)) :=
  opcode_roundtrip (Opcode.LDA (.Absolute 0x1234))
    (show (0x1234 : Nat) < 65536 by decide)

/-! ## `nes6502/assembler.rs`: `Assembler::assemble` (claim C9) -/

/-- `Assembler::assemble` (assembler.rs:6-12): append each
instruction's byte encoding, propagating the first encoding error (the
`?` operator). -/
def assemble : List Opcode → Except ParseError (List Nat)
  | [] => .ok []
  | op :: rest =>
    match opcodeToBytes op with
    | .error e => .error e
    | .ok bytes =>
      match assemble rest with
      | .error e => .error e
      | .ok tail => .ok (bytes ++ tail)

/-- A (mnemonic, addressing mode) combination is legal when its byte
encoding succeeds. -/
def opLegal (op : Opcode) : Bool :=
  match opcodeToBytes op with
  | .ok _ => true
  | .error _ => false

/-- The concatenation of the per-instruction byte encodings (the
spec's description of a successful assembly). -/
def concatEncoding : List Opcode → List Nat
  | [] => []
  | op :: rest =>
    (match opcodeToBytes op with | .ok bs => bs | .error _ => []) ++
      concatEncoding rest

/-- Every encoding failure of `opcodeToBytes` is `InvalidAddressMode`
(the `InvalidOpcode` variant of `ParseError` is never produced). -/
theorem opcodeToBytes_error_mode (op : Opcode) (e : ParseError)
    (he : opcodeToBytes op = .error e) : e = ParseError.InvalidAddressMode := by
  cases op <;>
    first
      | exact Except.noConfusion he
      | (injection he with h1; exact h1.symm)
      | (cases ‹AddressingMode› <;>
          first
            | exact Except.noConfusion he
            | (injection he with h1; exact h1.symm))

/-- C9: `assemble` returns `Ok` with the concatenation of the
per-instruction encodings when every (opcode, addressing-mode)
combination in the sequence is legal, and returns
`Err(InvalidAddressMode)` when some combination is not legal — no
other failure is possible. -/
theorem assemble_spec (code : List Opcode) :
    ((∀ op ∈ code, opLegal op = true) →
      assemble code = .ok (concatEncoding code)) ∧
    ((∃ op ∈ code, opLegal op = false) →
      assemble code = .error ParseError.InvalidAddressMode) := by
  induction code with
  | nil =>
    refine ⟨fun _ => rfl, ?_⟩
    rintro ⟨op, hmem, -⟩
    exact absurd hmem (List.not_mem_nil op)
  | cons op rest ih =>
    refine ⟨?_, ?_⟩
    · intro hall
      have hop := hall op (List.mem_cons_self op rest)
      cases hb : opcodeToBytes op with
      | error e => simp [opLegal, hb] at hop
      | ok bs =>
        have hrest := ih.1 (fun o ho => hall o (List.mem_cons_of_mem op ho))
        simp [assemble, concatEncoding, hb, hrest]
    · rintro ⟨op0, hmem, hlegal⟩
      rcases List.mem_cons.mp hmem with rfl | hmem0
      · cases hb : opcodeToBytes op0 with
        | ok bs => simp [opLegal, hb] at hlegal
        | error e =>
          have he := opcodeToBytes_error_mode op0 e hb
          subst he
          simp [assemble, hb]
      · cases hb : opcodeToBytes op with
        | error e =>
          have he := opcodeToBytes_error_mode op e hb
          subst he
          simp [assemble, hb]
        | ok bs =>
          have hrest := ih.2 ⟨op0, hmem0, hlegal⟩
          simp [assemble, hb, hrest]

/-- Witness for C9: an all-legal program assembles to the concatenated
encoding, and `ADC(Implicit)` makes `assemble` fail with
`InvalidAddressMode`. -/
theorem assemble_spec_witness :
    assemble [Opcode.ADC (.Immediate 5), Opcode.NOP] =
      .ok (concatEncoding [Opcode.ADC (.Immediate 5), Opcode.NOP]) ∧
    assemble [Opcode.ADC .Implicit] = .error ParseError.InvalidAddressMode :=
  ⟨(assemble_spec [Opcode.ADC (.Immediate 5), Opcode.NOP]).1 (by decide),
   (assemble_spec [Opcode.ADC .Implicit]).2
     ⟨Opcode.ADC .Implicit, List.Mem.head _, rfl⟩⟩

/-! ## `nes6502.rs`: the falling-edge handler of `Execute(op, step)` for
no-operand instructions (claim C8)

The pins the handler touches are modelled by fields: `addr` is the
value driven on A0..A15, `dataOut` the value driven on D0..D7,
`dataDir` the data-bus direction and `rwHigh` the R/W pin; the byte the
CPU would read from the data bus arrives as the `dataIn` argument.
Event listeners receive `&self` and cannot change the CPU, so they are
not modelled.  `Reg<u8>`/`Reg<u16>` arithmetic is 8 or 16 bit wrapping
(modelled from the spec, `chip/cpu.rs` is not in this snapshot). -/

/-- `PinType` (chip.rs:147-154). -/
inductive PinType where
  | Floating
  | Input
  | Output
deriving DecidableEq, Repr

/-- `CpuState` (nes6502.rs:39-52). -/
inductive CpuState where
  | Reset
  | ResetCollectHighByte
  | ResetCollectLowByte
  | NmiCollectHighByte
  | NmiCollectLowByte
  | IrqCollectHighByte
  | IrqCollectLowByte
  | Fetch
  | Arg1 (op : Opcode)
  | Arg2 (op : Opcode)
  | Execute (op : Opcode) (step : Nat)
  | Halted
deriving Repr

/-- The CPU registers, state machine and the pins the `Execute` handler
drives. -/
structure CpuCore where
  a : Nat
  x : Nat
  y : Nat
  s : Nat
  pc : Nat
  p : StatusFlags
  state : CpuState
  buffer : Nat
  addr : Nat
  dataOut : Nat
  dataDir : PinType
  rwHigh : Bool

namespace CpuCore

/-- `Nes6502::set_addr` (nes6502.rs:346-368): drive the 16 address
pins. -/
def set_addr (c : CpuCore) (v : Nat) : CpuCore := { c with addr := v % 65536 }

/-- `Nes6502::set_data` (nes6502.rs:386-400): drive the 8 data pins. -/
def set_data (c : CpuCore) (v : Nat) : CpuCore := { c with dataOut := v % 256 }

/-- `Nes6502::set_data_type` (nes6502.rs:370-384): set the data-bus
direction and reflect it on the R/W pin (High = read, Low = write;
Floating leaves R/W alone). -/
def set_data_type (c : CpuCore) (t : PinType) : CpuCore :=
  match t with
  | .Input => { c with rwHigh := true, dataDir := .Input }
  | .Output => { c with rwHigh := false, dataDir := .Output }
  | .Floating => { c with dataDir := .Floating }

/-- `Nes6502::run_st` (nes6502.rs:1448-1452). -/
def run_st (c : CpuCore) (val addr : Nat) : CpuCore :=
  ((c.set_addr addr).set_data val).set_data_type .Output

/-- `Nes6502::push_stack` (nes6502.rs:1351-1354): store at
`0x100 + S`, then decrement S (8-bit wrapping). -/
def push_stack (c : CpuCore) (val : Nat) : CpuCore :=
  let c := c.run_st val (0x100 + c.s)
  { c with s := (c.s + 255) % 256 }

/-- `Nes6502::pop_stack_prepare` (nes6502.rs:1356-1360): increment S
(8-bit wrapping), present `0x100 + S`, read mode. -/
def pop_stack_prepare (c : CpuCore) : CpuCore :=
  let c := { c with s := (c.s + 1) % 256 }
  (c.set_addr (0x100 + c.s)).set_data_type .Input

/-- Apply `Nes6502::set_flags_nz` to the core. -/
def with_flags_nz (c : CpuCore) (val : Nat) : CpuCore :=
  { c with p := set_flags_nz c.p val }

end CpuCore

/-- `StatusRegister::bits` for our flag record (bit 5 is never set by
the CPU model; `bitflags` only stores the declared bits). -/
def StatusFlags.bits (p : StatusFlags) : Nat :=
  (if p.n then 128 else 0) + (if p.v then 64 else 0) + (if p.b then 16 else 0) +
    (if p.d then 8 else 0) + (if p.i then 4 else 0) + (if p.z then 2 else 0) +
    (if p.c then 1 else 0)

/-- `StatusRegister::from_bits_retain` restricted to the declared flag
bits (the undeclared bit 5 is not representable in the record). -/
def StatusFlags.ofBits (b : Nat) : StatusFlags :=
  { n := decide (0 < b &&& 128), v := decide (0 < b &&& 64)
    b := decide (0 < b &&& 16), d := decide (0 < b &&& 8)
    i := decide (0 < b &&& 4), z := decide (0 < b &&& 2)
    c := decide (0 < b &&& 1) }

/-- The body of the `CpuState::Execute(opcode, step)` arm for the
no-operand instructions (nes6502.rs:550-1320): the updated core and the
updated local `step`.  Instructions that carry operands or memory
addressing (outside the scope of the single-byte claim), and the
`todo!()` arms `BRK`/`RTI`, give `none`. -/
def exArm (op : Opcode) (step : Nat) (dataIn : Nat) (c : CpuCore) :
    Option (CpuCore × Nat) :=
  match op with
  | .ASL .Implicit =>
    let c := { c with p := { c.p with c := decide (0 < c.a &&& 128) } }
    let c := { c with a := c.a <<< 1 % 256 }
    some ({ (c.with_flags_nz c.a) with state := .Fetch }, step)
  | .LSR .Implicit =>
    let c := { c with p := { c.p with c := decide (0 < c.a &&& 1) } }
    let c := { c with a := c.a >>> 1 }
    some ({ (c.with_flags_nz c.a) with state := .Fetch }, step)
  | .ROL .Implicit =>
    let oldCarry := if c.p.c then 1 else 0
    let c := { c with p := { c.p with c := decide (0 < c.a &&& 128) } }
    let c := { c with a := (c.a <<< 1 % 256 + oldCarry) % 256 }
    some ({ (c.with_flags_nz c.a) with state := .Fetch }, step)
  | .ROR .Implicit =>
    let oldCarry := if c.p.c then 1 else 0
    let c := { c with p := { c.p with c := decide (0 < c.a &&& 1) } }
    let c := { c with a := (c.a >>> 1 + oldCarry <<< 7) % 256 }
    some ({ (c.with_flags_nz c.a) with state := .Fetch }, step)
  | .BRK => none
  | .CLC => some ({ c with p := { c.p with c := false }, state := .Fetch }, step)
  | .SEC => some ({ c with p := { c.p with c := true }, state := .Fetch }, step)
  | .CLI => some ({ c with p := { c.p with i := false }, state := .Fetch }, step)
  | .SEI => some ({ c with p := { c.p with i := true }, state := .Fetch }, step)
  | .CLV => some ({ c with p := { c.p with v := false }, state := .Fetch }, step)
  | .NOP => some ({ c with state := .Fetch }, step)
  | .TAX =>
    let c := { c with x := c.a }
    some ({ (c.with_flags_nz c.x) with state := .Fetch }, step)
  | .TXA =>
    let c := { c with a := c.x }
    some ({ (c.with_flags_nz c.a) with state := .Fetch }, step)
  | .DEX =>
    let c := { c with x := (c.x + 255) % 256 }
    some ({ (c.with_flags_nz c.x) with state := .Fetch }, step)
  | .INX =>
    let c := { c with x := (c.x + 1) % 256 }
    some ({ (c.with_flags_nz c.x) with state := .Fetch }, step)
  | .TAY =>
    let c := { c with y := c.a }
    some ({ (c.with_flags_nz c.y) with state := .Fetch }, step)
  | .TYA =>
    let c := { c with a := c.y }
    some ({ (c.with_flags_nz c.a) with state := .Fetch }, step)
  | .DEY =>
    let c := { c with y := (c.y + 255) % 256 }
    some ({ (c.with_flags_nz c.y) with state := .Fetch }, step)
  | .INY =>
    let c := { c with y := (c.y + 1) % 256 }
    some ({ (c.with_flags_nz c.y) with state := .Fetch }, step)
  | .RTI => none
  | .RTS =>
    if step = 0 then
      some ((({ c with buffer := 0 }).pop_stack_prepare), step + 1)
    else if step = 1 then
      some ((({ c with buffer := dataIn % 256 }).pop_stack_prepare), step + 1)
    else
      let c := { c with buffer := (c.buffer + dataIn % 256 * 2 ^ 8) % 65536 }
      some ({ c with pc := (c.buffer + 1) % 65536, state := .Fetch }, step)
  | .TXS => some ({ c with s := c.x, state := .Fetch }, step)
  | .TSX => some ({ c with x := c.s, state := .Fetch }, step)
  | .PHA =>
    if step = 0 then some (c.push_stack c.a, step + 1)
    else some ({ c with state := .Fetch }, step)
  | .PLA =>
    if step = 0 then some (c.pop_stack_prepare, step + 1)
    else some ({ c with a := dataIn % 256 }, step)
  | .PHP =>
    if step = 0 then some (c.push_stack c.p.bits, step + 1)
    else some ({ c with state := .Fetch }, step)
  | .PLP =>
    if step = 0 then some (c.pop_stack_prepare, step + 1)
    else some ({ c with p := StatusFlags.ofBits (dataIn % 256) }, step)
  | _ => none

/-- The epilogue of the `Execute` arm (nes6502.rs:1322-1328): re-store
`Execute(opcode, step)` if the state is still an `Execute`, then, if
the state has become `Fetch`, present PC on the address bus and
increment PC. -/
def finishExecute (op : Opcode) (step : Nat) (c : CpuCore) : CpuCore :=
  let c :=
    match c.state with
    | .Execute _ _ => { c with state := .Execute op step }
    | _ => c
  match c.state with
  | .Fetch => { (c.set_addr c.pc) with pc := (c.pc + 1) % 65536 }
  | _ => c

/-- One CLK falling edge taken in state `Execute(op, step)`
(nes6502.rs:495-1329), for the modelled (no-operand) instructions:
`need_compute` is checked first (always false for them), then the
instruction arm runs, then the epilogue. -/
def executeFalling (op : Opcode) (step : Nat) (dataIn : Nat) (c : CpuCore) :
    Option CpuCore :=
  let c := { c with state := .Execute op step }
  if op.need_compute then none
  else
    match exArm op step dataIn c with
    | none => none
    | some (c2, step2) => some (finishExecute op step2 c2)

/-- The single-byte instructions that do complete in one `Execute`
step. -/
def impliedOneStep : List Opcode :=
  [.CLC, .SEC, .CLI, .SEI, .CLV, .NOP, .TAX, .TXA, .TAY, .TYA, .DEX, .DEY,
   .INX, .INY, .TXS, .TSX, .ASL .Implicit, .LSR .Implicit, .ROL .Implicit,
   .ROR .Implicit]

/-- A concrete CPU core used to instantiate the C8 theorems. -/
def cpu8 : CpuCore :=
  { a := 0, x := 0, y := 0, s := 0xFD, pc := 0x8000, p := flags0
    state := .Fetch, buffer := 0, addr := 0, dataOut := 0
    dataDir := .Floating, rwHigh := true }

/-- C8 counterexample: `PHA` is a single-byte (no-operand) instruction,
yet one falling edge taken in `Execute(PHA, 0)` leaves the machine in
`Execute(PHA, 1)`, not in `Fetch` (the push occupies the first step and
only the second step returns to `Fetch`). -/
theorem pha_one_edge_not_fetch :
    Opcode.require_arg1 .PHA = false ∧
    ∃ c2, executeFalling .PHA 0 0 cpu8 = some c2 ∧
      c2.state = CpuState.Execute .PHA 1 ∧ ¬ c2.state = CpuState.Fetch := by
  refine ⟨rfl, _, rfl, rfl, ?_⟩
  intro h
  have h2 : CpuState.Execute .PHA 1 = CpuState.Fetch := h
  exact CpuState.noConfusion h2

/-- C8 (amended): one falling edge in `Execute(op, 0)` reaches `Fetch`
— presenting PC on the address bus and incrementing PC on that same
transition — exactly for the implied register, flag and
accumulator-shift instructions; the stack pushes `PHA`/`PHP` reach
`Fetch` on their second edge, while the stack pops `PLA`/`PLP` stay in
`Execute(op, 1)` forever (their second step never changes the state). -/
theorem single_byte_execute_steps (op : Opcode) (c : CpuCore) (dataIn : Nat) :
    (op ∈ impliedOneStep →
      ∃ c2, executeFalling op 0 dataIn c = some c2 ∧
        c2.state = CpuState.Fetch ∧ c2.addr = c.pc % 65536 ∧
        c2.pc = (c.pc + 1) % 65536) ∧
    ((op = .PHA ∨ op = .PHP) →
      ∃ c2, executeFalling op 1 dataIn c = some c2 ∧
        c2.state = CpuState.Fetch ∧ c2.addr = c.pc % 65536 ∧
        c2.pc = (c.pc + 1) % 65536) ∧
    ((op = .PLA ∨ op = .PLP) →
      ∃ c2, executeFalling op 1 dataIn c = some c2 ∧
        c2.state = CpuState.Execute op 1) := by
  refine ⟨?_, ?_, ?_⟩
  · intro hop
    simp only [impliedOneStep, List.mem_cons, List.not_mem_nil, or_false] at hop
    rcases hop with rfl | rfl | rfl | rfl | rfl | rfl | rfl | rfl | rfl | rfl |
      rfl | rfl | rfl | rfl | rfl | rfl | rfl | rfl | rfl | rfl <;>
      exact ⟨_, rfl, rfl, rfl, rfl⟩
  · rintro (rfl | rfl) <;> exact ⟨_, rfl, rfl, rfl, rfl⟩
  · rintro (rfl | rfl) <;> exact ⟨_, rfl, rfl⟩

/-- Witness for the amended C8 theorem: `CLC` completes in one step on
the concrete core, `PHA` finishes on its second edge, and `PLA` is
still in `Execute(PLA, 1)` after its second edge. -/
theorem single_byte_execute_steps_witness :
    (∃ c2, executeFalling .CLC 0 0 cpu8 = some c2 ∧
      c2.state = CpuState.Fetch ∧ c2.addr = cpu8.pc % 65536 ∧
      c2.pc = (cpu8.pc + 1) % 65536) ∧
    (∃ c2, executeFalling .PHA 1 0 cpu8 = some c2 ∧
      c2.state = CpuState.Fetch ∧ c2.addr = cpu8.pc % 65536 ∧
      c2.pc = (cpu8.pc + 1) % 65536) ∧
    (∃ c2, executeFalling .PLA 1 0 cpu8 = some c2 ∧
      c2.state = CpuState.Execute .PLA 1) :=
  ⟨(single_byte_execute_steps .CLC cpu8 0).1 (List.Mem.head _),
   (single_byte_execute_steps .PHA cpu8 0).2.1 (Or.inl rfl),
   (single_byte_execute_steps .PLA cpu8 0).2.2 (Or.inl rfl)⟩

/-! ## `trace.rs` and `board.rs`: trace resolution and the tick loop
(claims C3 and C4)

`Trace::communicate` matches exactly the three levels Undefined, High
and Low, so the logic value is modelled with those three states.  The
pin cells shared through `Rc<RefCell<Pin>>` are modelled as a list of
pins indexed by position; a trace is the list of indices of its
endpoint pins.  Pin directions use the `PinType` of chip.rs (Floating,
Input, Output). -/

/-- The logic levels `Trace::communicate` distinguishes. -/
inductive State where
  | Undefined
  | High
  | Low
deriving DecidableEq, Repr

/-- A pin cell: direction and current value (`Pin` of chip.rs:156-161;
the identification fields of the old `Pin` are the list position). -/
structure Pin where
  pin_type : PinType
  state : State
deriving DecidableEq, Repr

/-- Phase 1 of `Trace::communicate` (trace.rs:23-32): fold the values
of the Output endpoints into `main_state` (High dominates; Low only
replaces Undefined); non-Output endpoints and dead indices are not
read. -/
def collectState (pins : List Pin) (link : List Nat) (mainState : State) : State :=
  match link with
  | [] => mainState
  | idx :: rest =>
    let m2 :=
      match pins[idx]? with
      | some pin =>
        if pin.pin_type = .Output then
          match pin.state with
          | .High => State.High
          | .Low => if mainState = .Undefined then State.Low else mainState
          | .Undefined => mainState
        else mainState
      | none => mainState
    collectState pins rest m2

/-- Phase 2 of `Trace::communicate` (trace.rs:33-37): write
`main_state` into EVERY endpoint whose direction is not Output. -/
def distribute (pins : List Pin) (link : List Nat) (mainState : State) : List Pin :=
  match link with
  | [] => pins
  | idx :: rest =>
    let ps2 :=
      match pins[idx]? with
      | some pin =>
        if pin.pin_type ≠ .Output then pins.set idx { pin with state := mainState }
        else pins
      | none => pins
    distribute ps2 rest mainState

/-- `Trace::communicate` (trace.rs:22-38). -/
def communicate (pins : List Pin) (link : List Nat) : List Pin :=
  distribute pins link (collectState pins link .Undefined)

/-- The chips wired into the board model: the old `Generator`
(generators.rs), which on `run` drives its first pin High and its
second pin Low. -/
inductive BoardChip where
  | generator (vcc gnd : Nat)
deriving DecidableEq, Repr

/-- `Socket::run` (socket.rs:121-125): run the plugged chip if any;
`Generator::run` (generators.rs:69-72) rewrites its two pins. -/
def socketRun (sk : Option BoardChip) (pins : List Pin) : List Pin :=
  match sk with
  | none => pins
  | some (.generator vccIdx gndIdx) =>
    let pins :=
      match pins[vccIdx]? with
      | some pin => pins.set vccIdx { pin with state := .High }
      | none => pins
    match pins[gndIdx]? with
    | some pin => pins.set gndIdx { pin with state := .Low }
    | none => pins

/-- `Board` (board.rs:7-10): traces and sockets over shared pin
cells. -/
structure Board where
  pins : List Pin
  traces : List (List Nat)
  sockets : List (Option BoardChip)
deriving DecidableEq, Repr

/-- `Board::run` (board.rs:66-75): resolve every trace in order, then
run every socket in order.  There is no pass that resets Input pins. -/
def boardRun (b : Board) : Board :=
  let pins := b.traces.foldl (fun ps tr => communicate ps tr) b.pins
  let pins := b.sockets.foldl (fun ps sk => socketRun sk ps) pins
  { b with pins := pins }

/-- The tick of the claim, following the spec's words (for comparison
with `boardRun`): first reset every Input pin to Undefined, then
resolve every trace, then run every chip. -/
def boardRunClaim (b : Board) : Board :=
  let pins := b.pins.map fun pin =>
    if pin.pin_type = .Input then { pin with state := .Undefined } else pin
  let pins := b.traces.foldl (fun ps tr => communicate ps tr) pins
  let pins := b.sockets.foldl (fun ps sk => socketRun sk ps) pins
  { b with pins := pins }

/-- C3 counterexample: a board with a single High Input pin, no trace
and one empty socket.  `Board::run` leaves the pin High, while the
claimed three-pass tick would have reset it to Undefined in its first
pass. -/
theorem board_run_has_no_reset_pass :
    (boardRun ⟨[⟨.Input, .High⟩], [], [none]⟩).pins = [⟨.Input, .High⟩] ∧
    (boardRunClaim ⟨[⟨.Input, .High⟩], [], [none]⟩).pins = [⟨.Input, .Undefined⟩] ∧
    (⟨.Input, .High⟩ : Pin) ≠ ⟨.Input, .Undefined⟩ := by decide

theorem distribute_not_mem (link : List Nat) (pins : List Pin)
    (m : State) (i : Nat) (hi : i ∉ link) :
    (distribute pins link m)[i]? = pins[i]? := by
  induction link generalizing pins with
  | nil => rfl
  | cons idx rest ih =>
    have hne : i ≠ idx := fun he => hi (he ▸ List.mem_cons_self idx rest)
    have hrest : i ∉ rest := fun hr => hi (List.mem_cons_of_mem idx hr)
    simp only [distribute]
    rcases hidx : pins[idx]? with _ | pin
    · exact ih pins hrest
    · dsimp only
      by_cases hout : pin.pin_type = PinType.Output
      · rw [if_neg (by simpa using hout)]
        exact ih pins hrest
      · rw [if_pos (by simpa using hout)]
        rw [ih _ hrest, List.getElem?_set_ne (fun he => hne he.symm)]

theorem distribute_output (link : List Nat) (pins : List Pin)
    (m : State) (i : Nat) (pin : Pin) (hp : pins[i]? = some pin)
    (hout : pin.pin_type = PinType.Output) :
    (distribute pins link m)[i]? = some pin := by
  induction link generalizing pins with
  | nil => exact hp
  | cons idx rest ih =>
    simp only [distribute]
    rcases hidx : pins[idx]? with _ | pin2
    · exact ih pins hp
    · dsimp only
      by_cases hout2 : pin2.pin_type = PinType.Output
      · rw [if_neg (by simpa using hout2)]
        exact ih pins hp
      · rw [if_pos (by simpa using hout2)]
        by_cases hii : i = idx
        · subst hii
          rw [hp] at hidx
          cases hidx
          exact absurd hout hout2
        · refine ih _ ?_
          rw [List.getElem?_set_ne (fun he => hii he.symm)]
          exact hp

theorem distribute_input (link : List Nat) (pins : List Pin)
    (m : State) (i : Nat) (pin : Pin) (hp : pins[i]? = some pin)
    (hnout : pin.pin_type ≠ PinType.Output) (hmem : i ∈ link) :
    (distribute pins link m)[i]? = some { pin with state := m } := by
  induction link generalizing pins pin with
  | nil => exact absurd hmem (List.not_mem_nil i)
  | cons idx rest ih =>
    simp only [distribute]
    obtain ⟨hplen, -⟩ := List.getElem?_eq_some_iff.mp hp
    by_cases hii : i = idx
    · subst hii
      rw [hp]
      dsimp only
      rw [if_pos (by simpa using hnout)]
      by_cases hrest : i ∈ rest
      · exact ih (pins.set i { pin with state := m }) { pin with state := m }
          (by rw [List.getElem?_set_self hplen]) hnout hrest
      · rw [distribute_not_mem rest _ m i hrest]
        rw [List.getElem?_set_self hplen]
    · have hrest : i ∈ rest := by
        rcases List.mem_cons.mp hmem with he | hr
        · exact absurd he hii
        · exact hr
      rcases hidx : pins[idx]? with _ | pin2
      · exact ih pins pin hp hnout hrest
      · dsimp only
        by_cases hout2 : pin2.pin_type = PinType.Output
        · rw [if_neg (by simpa using hout2)]
          exact ih pins pin hp hnout hrest
        · rw [if_pos (by simpa using hout2)]
          refine ih _ pin ?_ hnout hrest
          rw [List.getElem?_set_ne (fun he => hii he.symm)]
          exact hp

theorem collectState_set_non_output (link : List Nat) (pins : List Pin)
    (m : State) (i : Nat) (pin : Pin) (s2 : State)
    (hp : pins[i]? = some pin) (hnout : pin.pin_type ≠ PinType.Output) :
    collectState (pins.set i { pin with state := s2 }) link m =
      collectState pins link m := by
  obtain ⟨hplen, -⟩ := List.getElem?_eq_some_iff.mp hp
  induction link generalizing m with
  | nil => rfl
  | cons idx rest ih =>
    simp only [collectState]
    by_cases hii : idx = i
    · subst hii
      rw [hp, List.getElem?_set_self hplen]
      dsimp only
      rw [if_neg hnout, if_neg hnout]
      exact ih m
    · rw [List.getElem?_set_ne (fun he => hii he.symm)]
      rcases pins[idx]? with _ | pin2
      · exact ih m
      · exact ih _

/-- C4 (amended): trace resolution never reads a non-Output pin in the
collect phase and never writes an Output pin or a non-endpoint pin, but
the distribute phase writes EVERY endpoint whose direction is not
Output — Input and Floating alike — so a Floating endpoint's stored
value is overwritten with the resolved bus value. -/
theorem communicate_characterization (pins : List Pin) (link : List Nat)
    (i : Nat) (pin : Pin) (hp : pins[i]? = some pin) :
    (pin.pin_type = PinType.Output → (communicate pins link)[i]? = some pin) ∧
    (i ∉ link → (communicate pins link)[i]? = some pin) ∧
    (pin.pin_type ≠ PinType.Output → i ∈ link →
      (communicate pins link)[i]? =
        some { pin with state := collectState pins link .Undefined }) ∧
    (∀ s2, pin.pin_type ≠ PinType.Output →
      collectState (pins.set i { pin with state := s2 }) link .Undefined =
        collectState pins link .Undefined) := by
  refine ⟨?_, ?_, ?_, ?_⟩
  · intro hout
    exact distribute_output link pins _ i pin hp hout
  · intro hmem
    exact (distribute_not_mem link pins _ i hmem).trans hp
  · intro hnout hmem
    exact distribute_input link pins _ i pin hp hnout hmem
  · intro s2 hnout
    exact collectState_set_non_output link pins _ i pin s2 hp hnout

/-- C4 counterexample: a trace between a High Output pin and a Floating
pin holding Low.  Resolving the trace overwrites the Floating pin with
High, so its stored value is NOT unchanged. -/
theorem trace_resolution_writes_floating_pin :
    (communicate [⟨.Output, .High⟩, ⟨.Floating, .Low⟩] [0, 1])[1]? =
      some ⟨.Floating, .High⟩ ∧
    (⟨.Floating, .High⟩ : Pin) ≠ ⟨.Floating, .Low⟩ := by decide

/-- Witness for the amended C4 theorem on that same trace: the Output
endpoint is unchanged and the Floating endpoint receives the resolved
bus value. -/
theorem communicate_characterization_witness :
    (communicate [⟨.Output, .High⟩, ⟨.Floating, .Low⟩] [0, 1])[0]? =
      some ⟨.Output, .High⟩ ∧
    (communicate [⟨.Output, .High⟩, ⟨.Floating, .Low⟩] [0, 1])[1]? =
      some { (⟨.Floating, .Low⟩ : Pin) with
        state := collectState [⟨.Output, .High⟩, ⟨.Floating, .Low⟩] [0, 1] .Undefined } :=
  ⟨(communicate_characterization [⟨.Output, .High⟩, ⟨.Floating, .Low⟩] [0, 1]
      0 ⟨.Output, .High⟩ rfl).1 rfl,
   (communicate_characterization [⟨.Output, .High⟩, ⟨.Floating, .Low⟩] [0, 1]
      1 ⟨.Floating, .Low⟩ rfl).2.2.1 (by decide) (by decide)⟩

theorem traces_fold_not_mem (trs : List (List Nat)) (pins : List Pin)
    (i : Nat) (hi : ∀ tr ∈ trs, i ∉ tr) :
    (trs.foldl (fun ps tr => communicate ps tr) pins)[i]? = pins[i]? := by
  induction trs generalizing pins with
  | nil => rfl
  | cons tr rest ih =>
    rw [List.foldl_cons,
      ih (communicate pins tr) (fun t ht => hi t (List.mem_cons_of_mem tr ht))]
    exact distribute_not_mem tr pins _ i (hi tr (List.mem_cons_self tr rest))

theorem sockets_fold_none (sks : List (Option BoardChip)) (pins : List Pin)
    (hnone : ∀ sk ∈ sks, sk = none) :
    sks.foldl (fun ps sk => socketRun sk ps) pins = pins := by
  induction sks with
  | nil => rfl
  | cons sk rest ih =>
    rw [List.foldl_cons, hnone sk (List.mem_cons_self sk rest)]
    exact ih (fun s hs => hnone s (List.mem_cons_of_mem sk hs))

/-- C3 (amended): `Board::run` is a two-pass step — every trace is
resolved in order, then every chip is ticked in order — with no
input-reset pass: on a board whose sockets are all empty, a pin that
belongs to no trace keeps its value across the tick, whatever its
direction. -/
theorem board_run_two_pass (b : Board) :
    (boardRun b).pins =
      b.sockets.foldl (fun ps sk => socketRun sk ps)
        (b.traces.foldl (fun ps tr => communicate ps tr) b.pins) ∧
    (boardRun b).traces = b.traces ∧
    (boardRun b).sockets = b.sockets ∧
    (∀ i pin, b.pins[i]? = some pin → (∀ tr ∈ b.traces, i ∉ tr) →
      (∀ sk ∈ b.sockets, sk = none) → (boardRun b).pins[i]? = some pin) := by
  refine ⟨rfl, rfl, rfl, ?_⟩
  intro i pin hp htr hsk
  show (b.sockets.foldl (fun ps sk => socketRun sk ps)
    (b.traces.foldl (fun ps tr => communicate ps tr) b.pins))[i]? = some pin
  rw [sockets_fold_none b.sockets _ hsk, traces_fold_not_mem b.traces b.pins i htr]
  exact hp

/-- Witness for the amended C3 theorem on the one-pin board with no
trace and an empty socket: the High Input pin survives the tick. -/
theorem board_run_two_pass_witness :
    (boardRun ⟨[⟨.Input, .High⟩], [], [none]⟩).pins[0]? =
      some ⟨.Input, .High⟩ :=
  (board_run_two_pass ⟨[⟨.Input, .High⟩], [], [none]⟩).2.2.2 0
    ⟨.Input, .High⟩ rfl
    (fun tr htr => absurd htr (List.not_mem_nil tr))
    (fun sk hsk => by
      rcases List.mem_cons.mp hsk with he | hn
      · exact he
      · exact absurd hn (List.not_mem_nil sk))

/-! ## `memories.rs`: RAM power-on randomization (claim C5)

`random::<u8>()` is modelled by an oracle `rng : Nat → Nat` providing
the sample of each loop iteration. -/

/-- The randomization loop shared by both RAM chips: `for i in 0..256 {
ram[i] = random::<u8>(); }`. -/
def randomizeLoop (rng : Nat → Nat) (ram : List Nat) : List Nat :=
  (List.range 256).foldl (fun r i => r.set i (rng i % 256)) ram

/-- The power-transition slice of `Ram256B::run` (memories.rs:162-169,
230-233): on a tick where VCC reads High while unpowered, randomize
cells 0..255 and set the powered flag. -/
def ram256PowerTick (powered vccHigh : Bool) (rng : Nat → Nat)
    (ram : List Nat) : Bool × List Nat :=
  if vccHigh then
    if powered then (true, ram) else (true, randomizeLoop rng ram)
  else (false, ram)

/-- The power-transition slice of `Ram8KB::run` (memories.rs:437-444,
505-508): the loop bound is ALSO `0..256` although the array has 8192
cells. -/
def ram8kPowerTick (powered vccHigh : Bool) (rng : Nat → Nat)
    (ram : List Nat) : Bool × List Nat :=
  if vccHigh then
    if powered then (true, ram) else (true, randomizeLoop rng ram)
  else (false, ram)

theorem setFold_not_mem (f : Nat → Nat) (L : List Nat) (ram : List Nat)
    (j : Nat) (hj : j ∉ L) :
    (L.foldl (fun r i => r.set i (f i)) ram)[j]? = ram[j]? := by
  induction L generalizing ram with
  | nil => rfl
  | cons k rest ih =>
    have hkj : k ≠ j := by
      intro he
      subst he
      exact hj (List.mem_cons_self k rest)
    rw [List.foldl_cons, ih _ (fun hr => hj (List.mem_cons_of_mem k hr)),
      List.getElem?_set_ne hkj]

theorem setFold_mem (f : Nat → Nat) (L : List Nat) (ram : List Nat)
    (j : Nat) (hnd : L.Nodup) (hj : j ∈ L) (hlen : j < ram.length) :
    (L.foldl (fun r i => r.set i (f i)) ram)[j]? = some (f j) := by
  induction L generalizing ram with
  | nil => exact absurd hj (List.not_mem_nil j)
  | cons k rest ih =>
    rw [List.foldl_cons]
    by_cases hkj : j = k
    · subst hkj
      have hnotin : j ∉ rest := (List.nodup_cons.mp hnd).1
      rw [setFold_not_mem f rest _ j hnotin, List.getElem?_set_self hlen]
    · have hrest : j ∈ rest := by
        rcases List.mem_cons.mp hj with he | hr
        · exact absurd he hkj
        · exact hr
      exact ih _ (List.nodup_cons.mp hnd).2 hrest (by rwa [List.length_set])

/-- Cells at or beyond index 256 are untouched by the randomization
loop. -/
theorem randomizeLoop_getElem_ge (rng : Nat → Nat) (ram : List Nat)
    (j : Nat) (hj : 256 ≤ j) :
    (randomizeLoop rng ram)[j]? = ram[j]? :=
  setFold_not_mem (fun i => rng i % 256) (List.range 256) ram j
    (fun hmem => absurd (List.mem_range.mp hmem) (by omega))

/-- Cells below 256 receive their oracle sample. -/
theorem randomizeLoop_getElem_lt (rng : Nat → Nat) (ram : List Nat)
    (j : Nat) (hj : j < 256) (hlen : j < ram.length) :
    (randomizeLoop rng ram)[j]? = some (rng j % 256) :=
  setFold_mem (fun i => rng i % 256) (List.range 256) ram j
    (List.nodup_range 256) (List.mem_range.mpr hj) hlen

/-- C5: on the first powered tick, `Ram8KB` randomizes only the first
256 of its 8192 bytes.  With an oracle that always returns 7 and a
zeroed array, cell 255 becomes 7 but cell 300 keeps its old value 0 —
it is not overwritten at all.  (`Ram256B`, whose array has exactly 256
cells, does get every byte overwritten: cells 0 and 255 shown.) -/
theorem ram8k_power_on_randomizes_only_256_bytes :
    (ram8kPowerTick false true (fun _ => 7) (List.replicate 8192 0)).2[300]? =
      some 0 ∧
    (ram8kPowerTick false true (fun _ => 7) (List.replicate 8192 0)).2[255]? =
      some 7 ∧
    (ram256PowerTick false true (fun _ => 7) (List.replicate 256 0)).2[0]? =
      some 7 ∧
    (ram256PowerTick false true (fun _ => 7) (List.replicate 256 0)).2[255]? =
      some 7 ∧
    300 < 8192 := by
  refine ⟨?_, ?_, ?_, ?_, by norm_num⟩
  · show (randomizeLoop (fun _ => 7) (List.replicate 8192 0))[300]? = some 0
    rw [randomizeLoop_getElem_ge _ _ _ (by norm_num), List.getElem?_replicate]
    norm_num
  · show (randomizeLoop (fun _ => 7) (List.replicate 8192 0))[255]? = some 7
    rw [randomizeLoop_getElem_lt _ _ _ (by norm_num)
      (by rw [List.length_replicate]; norm_num)]
  · show (randomizeLoop (fun _ => 7) (List.replicate 256 0))[0]? = some 7
    rw [randomizeLoop_getElem_lt _ _ _ (by norm_num)
      (by rw [List.length_replicate]; norm_num)]
  · show (randomizeLoop (fun _ => 7) (List.replicate 256 0))[255]? = some 7
    rw [randomizeLoop_getElem_lt _ _ _ (by norm_num)
      (by rw [List.length_replicate]; norm_num)]

end VirtIc
